import Mathlib

/-!
XInput plugin: device polling and channel mapping.

A shallow embedding of `src/XInput.cpp` (the Rainmeter XInput plugin) and
theorems about its rate-limited polling and its raw-to-channel translation.

The C++ `double` and `float` values are modelled by their exact rational
value; every arithmetic operation of the source is followed by the IEEE-754
rounding (round to nearest, ties to even) of the format in which C++
evaluates it.
-/

namespace XInput

/-! ## Binary floating point -/

/-- IEEE-754 round to nearest, ties to even, of the exact value `x` into the
binary format with `prec` significand bits and smallest normal exponent
`emin` (gradual underflow included).  The exponent of the last significand bit
is `max ⌊log₂ |x|⌋ emin - (prec - 1)`; `x` is scaled by it, rounded to the
nearest integer (to the even one at a tie) and scaled back.  Overflow to
infinity is outside the model: every value the plugin computes from its inputs
has magnitude far below the largest finite number of either format. -/
def roundNE (prec : Nat) (emin : Int) (x : ℚ) : ℚ :=
  if x = 0 then 0 else
    let e : Int := max (Int.log 2 |x|) emin - ((prec : Int) - 1)
    let y : ℚ := x / (2 : ℚ) ^ e
    let n : Int := ⌊y⌋
    let f : ℚ := y - n
    let m : Int :=
      if f < 1 / 2 then n else if 1 / 2 < f then n + 1 else if n % 2 = 0 then n else n + 1
    (m : ℚ) * (2 : ℚ) ^ e

/-- Rounding to C++ `float` (binary32: 24 significand bits, emin = -126). -/
def f32 (x : ℚ) : ℚ := roundNE 24 (-126) x

/-- Rounding to C++ `double` (binary64: 53 significand bits, emin = -1022). -/
def f64 (x : ℚ) : ℚ := roundNE 53 (-1022) x

/-- Two's-complement wrap of an integer into the range of `LONGLONG`. -/
def wrap64 (x : Int) : Int := (x + 2 ^ 63) % 2 ^ 64 - 2 ^ 63

/-! ## Constants and channel enumeration (`struct Device`, lines 36-69) -/

/-- Source: `#define MAX_XINPUT_DEVICES 4`. -/
abbrev MAX_XINPUT_DEVICES : Nat := 4

/-- Source: `#define QUERY_TIMEOUT (1.0/100)`, a `double` division. -/
def QUERY_TIMEOUT : ℚ := f64 (1 / 100)

/-- Source: `NUM_CHANNELS`, the last enumerator of the channel enum. -/
abbrev NUM_CHANNELS : Nat := 23

/-- Index type of `m_data[NUM_CHANNELS]`. -/
abbrev Channel : Type := Fin NUM_CHANNELS

def CHANNEL_JOYL_X : Channel := 0
def CHANNEL_JOYL_Y : Channel := 1
def CHANNEL_JOYR_X : Channel := 2
def CHANNEL_JOYR_Y : Channel := 3
def CHANNEL_DPAD_U : Channel := 4
def CHANNEL_DPAD_D : Channel := 5
def CHANNEL_DPAD_L : Channel := 6
def CHANNEL_DPAD_R : Channel := 7
def CHANNEL_FACE_U : Channel := 8
def CHANNEL_FACE_D : Channel := 9
def CHANNEL_FACE_L : Channel := 10
def CHANNEL_FACE_R : Channel := 11
def CHANNEL_LTRIG1 : Channel := 12
def CHANNEL_RTRIG1 : Channel := 13
def CHANNEL_LTRIG2 : Channel := 14
def CHANNEL_RTRIG2 : Channel := 15
def CHANNEL_JOYL_CLICK : Channel := 16
def CHANNEL_JOYR_CLICK : Channel := 17
def CHANNEL_START : Channel := 18
def CHANNEL_BACK : Channel := 19
def CHANNEL_CONNECTED : Channel := 20
def CHANNEL_BATTERY_PAD : Channel := 21
def CHANNEL_BATTERY_HEADSET : Channel := 22

/-- Source: `#define DO_BATTERY 0`; the battery block of `Device::Update` is
compiled out. -/
abbrev DO_BATTERY : Bool := false

/-- Win32 `ERROR_SUCCESS`. -/
abbrev ERROR_SUCCESS : Nat := 0

/-! ## Data model -/

/-- Win32 `XINPUT_GAMEPAD` (the fields the plugin reads): `WORD wButtons`,
`BYTE bLeftTrigger, bRightTrigger`, `SHORT sThumbLX, sThumbLY, sThumbRX,
sThumbRY`. -/
structure XINPUT_GAMEPAD where
  wButtons : Nat
  bLeftTrigger : Nat
  bRightTrigger : Nat
  sThumbLX : Int
  sThumbLY : Int
  sThumbRX : Int
  sThumbRY : Int
deriving DecidableEq, Repr

/-- The field ranges that the C types of `XINPUT_GAMEPAD` enforce. -/
def XINPUT_GAMEPAD.InRange (gp : XINPUT_GAMEPAD) : Prop :=
  gp.wButtons < 65536 ∧ gp.bLeftTrigger ≤ 255 ∧ gp.bRightTrigger ≤ 255 ∧
  (-32768 ≤ gp.sThumbLX ∧ gp.sThumbLX ≤ 32767) ∧
  (-32768 ≤ gp.sThumbLY ∧ gp.sThumbLY ≤ 32767) ∧
  (-32768 ≤ gp.sThumbRX ∧ gp.sThumbRX ≤ 32767) ∧
  (-32768 ≤ gp.sThumbRY ∧ gp.sThumbRY ≤ 32767)

instance (gp : XINPUT_GAMEPAD) : Decidable gp.InRange := by
  unfold XINPUT_GAMEPAD.InRange; infer_instance

/-- Win32 `XINPUT_STATE`. -/
structure XINPUT_STATE where
  dwPacketNumber : Nat
  Gamepad : XINPUT_GAMEPAD
deriving DecidableEq, Repr

/-- The array `double m_data[NUM_CHANNELS]`. -/
abbrev ChannelData : Type := Channel → ℚ

/-- Source: `struct Device` (lines 41-83): raw snapshot, performance counter
at the last poll, parsed channel values. -/
structure Device where
  m_state : XINPUT_STATE
  m_pcPoll : Int
  m_data : ChannelData

/-- Source: constructor `Device::Device()` (lines 75-80): counter 0 and both
the snapshot and the channel array cleared by `memset`. -/
def Device.init : Device :=
  ⟨⟨0, ⟨0, 0, 0, 0, 0, 0, 0⟩⟩, 0, fun _ => 0⟩

/-- Outcome of one call `XInputGetState(devID, &m_state)`: the returned
status and the contents of the out-parameter after the call. -/
structure PollResult where
  code : Nat
  state : XINPUT_STATE
deriving DecidableEq, Repr

/-- Source: `struct Measure` (lines 86-96). -/
structure Measure where
  m_devID : Int
  m_channel : Int
deriving DecidableEq, Repr

/-- Source: constructor `Measure::Measure()`: both members 0. -/
def Measure.init : Measure := ⟨0, 0⟩

/-- The file-scope statics `s_pcMult` and `s_device[MAX_XINPUT_DEVICES]`
(lines 99-100). -/
structure Statics where
  s_pcMult : ℚ
  s_device : Fin MAX_XINPUT_DEVICES → Device

/-! ## `Device::Update` (lines 239-317) -/

/-- Source: `static const int s_buttonChan[16]` (lines 243-260), the map
from XInput button bits to channels; `-1` marks the two reserved bits. -/
def s_buttonChan : List Int :=
  [ CHANNEL_DPAD_U.val, CHANNEL_DPAD_D.val, CHANNEL_DPAD_L.val, CHANNEL_DPAD_R.val,
    CHANNEL_START.val, CHANNEL_BACK.val, CHANNEL_JOYL_CLICK.val, CHANNEL_JOYR_CLICK.val,
    CHANNEL_LTRIG1.val, CHANNEL_RTRIG1.val, -1, -1,
    CHANNEL_FACE_D.val, CHANNEL_FACE_R.val, CHANNEL_FACE_L.val, CHANNEL_FACE_U.val ]

/-- The assignment `m_data[iChan] = v` for an `int` index. -/
def setChan (data : ChannelData) (iChan : Int) (v : ℚ) : ChannelData :=
  fun j => if (j.val : Int) = iChan then v else data j

/-- Source: line 270, `(pcCur.QuadPart - m_pcPoll.QuadPart) * s_pcMult`: a
`LONGLONG` subtraction (wrapping on overflow, as the target does), converted
to `double`, times the `double` `s_pcMult`. -/
def elapsed (s_pcMult : ℚ) (pcCur m_pcPoll : Int) : ℚ :=
  f64 (f64 (wrap64 (pcCur - m_pcPoll)) * s_pcMult)

/-- Source: the staleness gate of line 270, `elapsed < QUERY_TIMEOUT`: the
device is still up to date and `Device::Update` returns at once. -/
def upToDate (s_pcMult : ℚ) (pcCur : Int) (d : Device) : Prop :=
  elapsed s_pcMult pcCur d.m_pcPoll < QUERY_TIMEOUT

instance (s_pcMult : ℚ) (pcCur : Int) (d : Device) : Decidable (upToDate s_pcMult pcCur d) := by
  unfold upToDate; infer_instance

/-- Source: line 283, `(double)((gp.wButtons & (1<<iButton)) != 0)`. -/
def digital (wButtons iButton : Nat) : ℚ :=
  if wButtons &&& (1 <<< iButton) ≠ 0 then 1 else 0

/-- Source: the loop of lines 280-285 over the 16 button bits. -/
def parseButtons (wButtons : Nat) (data : ChannelData) : ChannelData :=
  (List.range 16).foldl
    (fun acc iButton =>
      let iChan := s_buttonChan.getD iButton (-1)
      if iChan ≥ 0 then setChan acc iChan (digital wButtons iButton) else acc)
    data

/-- Source: lines 287-288, `(double)b * (1.0f/255)`: the constant is a
`float` division, promoted to `double` for the `double` product. -/
def trigger (b : Nat) : ℚ := f64 (f64 (b : ℚ) * f32 (1 / 255))

/-- Source: lines 290-293, `(double)(s+32768) * (2.0f/65535) - 1.0f`: an `int`
sum converted to `double`, a `double` product with the `float` constant, a
`double` difference. -/
def axis (s : Int) : ℚ := f64 (f64 (f64 ((s + 32768 : Int) : ℚ) * f32 (2 / 65535)) - 1)

/-- Source: lines 278-295, the branch taken when `XInputGetState` returns
`ERROR_SUCCESS` (the battery block is compiled out, `DO_BATTERY` is 0). -/
def parseState (gp : XINPUT_GAMEPAD) (data : ChannelData) : ChannelData :=
  let data := parseButtons gp.wButtons data
  let data := setChan data CHANNEL_LTRIG2.val (trigger gp.bLeftTrigger)
  let data := setChan data CHANNEL_RTRIG2.val (trigger gp.bRightTrigger)
  let data := setChan data CHANNEL_JOYL_X.val (axis gp.sThumbLX)
  let data := setChan data CHANNEL_JOYL_Y.val (axis gp.sThumbLY)
  let data := setChan data CHANNEL_JOYR_X.val (axis gp.sThumbRX)
  let data := setChan data CHANNEL_JOYR_Y.val (axis gp.sThumbRY)
  setChan data CHANNEL_CONNECTED.val 1

/-- Source: `void Device::Update(int devID)` (lines 239-317).  `pcCur` is
the value `QueryPerformanceCounter` returns in this call and `XInputGetState`
the answer the system would give for each device index.  The result is the
device afterwards and the number of `XInputGetState` calls issued. -/
def Device.Update (s_pcMult : ℚ) (pcCur : Int) (XInputGetState : Int → PollResult)
    (devID : Int) (d : Device) : Device × Nat :=
  if upToDate s_pcMult pcCur d then (d, 0)
  else
    let r := XInputGetState devID
    let data : ChannelData :=
      if r.code = ERROR_SUCCESS then parseState r.state.Gamepad d.m_data
      else fun _ => 0
    (⟨r.state, pcCur, data⟩, 1)

/-- Result of the exported `Update`: the returned value, the statics
afterwards, the number of hardware polls issued. -/
structure Outcome where
  value : ℚ
  statics : Statics
  polls : Nat

/-- Source: the exported `double Update(void* data)` (lines 224-233).  The
indexings `s_device[m_devID]` and `m_data[m_channel]` are undefined outside
the arrays; that case is `none`. -/
def Update (pcCur : Int) (XInputGetState : Int → PollResult) (m : Measure) (g : Statics) :
    Option Outcome :=
  if h : (0 ≤ m.m_devID ∧ m.m_devID < MAX_XINPUT_DEVICES) ∧
      (0 ≤ m.m_channel ∧ m.m_channel < NUM_CHANNELS) then
    let slot : Fin MAX_XINPUT_DEVICES := ⟨m.m_devID.toNat, by omega⟩
    let r := (g.s_device slot).Update g.s_pcMult pcCur XInputGetState m.m_devID
    some ⟨r.1.m_data ⟨m.m_channel.toNat, by omega⟩,
      ⟨g.s_pcMult, Function.update g.s_device slot r.1⟩, r.2⟩
  else none

/-! ## `Reload` (lines 142-215) -/

/-- Source: `static const LPCWSTR s_chanName[Device::NUM_CHANNELS]` (lines
146-170), the option names of the channels in enum order. -/
def s_chanName : List String :=
  [ "JoyL_X", "JoyL_Y", "JoyR_X", "JoyR_Y", "Dpad_U", "Dpad_D", "Dpad_L", "Dpad_R",
    "Face_U", "Face_D", "Face_L", "Face_R", "LTrig1", "RTrig1", "LTrig2", "RTrig2",
    "JoyL_Click", "JoyR_Click", "Start", "Back", "Connected", "Battery_Pad",
    "Battery_Headset" ]

/-- C runtime `towlower` in the "C" locale: only `A`..`Z` are changed. -/
def towlower (c : Char) : Char := c.toLower

/-- Case folding of a wide string, character by character. -/
def foldCase (s : List Char) : List Char := s.map towlower

/-- C runtime `_wcsicmp`, by its contract: 0 when the two strings are
identical up to letter case, negative or positive by the order of the folded
strings otherwise.  A string is the list of its characters before the
terminating NUL. -/
def _wcsicmp (a b : List Char) : Int :=
  if foldCase a = foldCase b then 0 else if foldCase a < foldCase b then -1 else 1

/-- Source: the loop of lines 185-190 over `names`, the entries of
`s_chanName` from index `iChannel` on: `some i` is the `break` at the first
index whose name matches, `none` is the exit with `iChannel = NUM_CHANNELS`. -/
def findChannel (channel : List Char) : List String → Nat → Option Nat
  | [], _ => none
  | name :: names, iChannel =>
    if _wcsicmp channel name.toList = 0 then some iChannel
    else findChannel channel names (iChannel + 1)

/-- What `Reload` reports through `RmLogF(rm, LOG_ERROR, ...)`: the device
message with its argument, or the channel message with the text built in
`msg`. -/
inductive LogEntry where
  | invalidDevice (devID : Int)
  | invalidChannel (msg : String)
deriving DecidableEq, Repr

/-- Source: lines 172-179, the device block of `Reload`: the value left in
`m_devID` and what is logged. -/
def reloadDevice (RmReadInt : Int → Int) (m : Measure) : Int × List LogEntry :=
  let d := RmReadInt m.m_devID
  if d < 0 ∨ d ≥ MAX_XINPUT_DEVICES then (0, [LogEntry.invalidDevice d]) else (d, [])

/-- The local `WCHAR msg[512]` with the cursor `WCHAR* d` of lines 192-193:
`text` is the content of `msg` up to its terminating NUL, `d` the offset of
the cursor from `msg`, in characters. -/
structure MsgBuf where
  text : List Char
  d : Int
deriving DecidableEq, Repr

/-- Source: one statement `d += _snwprintf_s(d, size, _TRUNCATE, ...)` of
lines 194-211, with `out` the formatted output and
`size = (sizeof(msg)+(UINT32)msg-(UINT32)d)/sizeof(WCHAR)`, which is
`(1024 - 2*d)/2` for the cursor offset `d`.  By the contract of
`_snwprintf_s`: when `out` and its NUL fit in `size` characters they are
written at the cursor and the length is returned; otherwise the first
`size - 1` characters and a NUL are written and -1 is returned, which moves
the cursor back by one.  A cursor outside `msg` makes the call write outside
the array: undefined, `none`. -/
def appendTruncate (b : MsgBuf) (out : List Char) : Option MsgBuf :=
  if b.d < 0 ∨ 512 ≤ b.d then none
  else
    let size : Int := (1024 - 2 * b.d) / 2
    if (out.length : Int) + 1 ≤ size then
      some ⟨b.text.take b.d.toNat ++ out, b.d + out.length⟩
    else
      some ⟨b.text.take b.d.toNat ++ out.take (size.toNat - 1), b.d - 1⟩

/-- Source: lines 202-205, the output of `L"%s%s%s"` for list entry `i`. -/
def listEntry (i : Nat) (name : String) : List Char :=
  (if i ≠ 0 then ", ".toList else " ".toList) ++
    (if i = NUM_CHANNELS - 1 then "or ".toList else []) ++ name.toList

/-- Source: the loop of lines 199-207 over `names`, the entries of
`s_chanName` from index `i` on. -/
def appendNames (b : MsgBuf) : List String → Nat → Option MsgBuf
  | [], _ => some b
  | name :: names, i =>
    match appendTruncate b (listEntry i name) with
    | none => none
    | some b1 => appendNames b1 names (i + 1)

/-- Source: lines 192-211, the message built for an unmatched `channel`. -/
def buildMessage (channel : List Char) : Option MsgBuf :=
  match appendTruncate ⟨[], 0⟩
      ("Invalid Channel '".toList ++ channel ++ "', must be one of:".toList) with
  | none => none
  | some b1 =>
    match appendNames b1 s_chanName 0 with
    | none => none
    | some b2 => appendTruncate b2 ".\n".toList

/-- Whether a `printf` format reads an argument: a `%` that is not doubled
starts a conversion.  `RmLogF(rm, LOG_ERROR, msg)` passes no argument, so by
the contract of the `printf` family such a format is undefined. -/
def formatReadsArgs : List Char → Bool
  | [] => false
  | [c] => c = '%'
  | c :: c2 :: rest =>
    if c = '%' then (if c2 = '%' then formatReadsArgs rest else true)
    else formatReadsArgs (c2 :: rest)

/-- Source: the exported `Reload` (lines 142-215).  `RmReadInt` is the answer
of `RmReadInt(rm, L"Device", def)` as a function of the default `def`, and
`channel` the answer of `RmReadString(rm, L"Channel", L"")`.  The result is
the measure afterwards and the error messages logged; it is `none` when the
call runs into undefined behaviour while it builds or logs the channel
message. -/
def Reload (RmReadInt : Int → Int) (channel : String) (m : Measure) :
    Option (Measure × List LogEntry) :=
  let dev := reloadDevice RmReadInt m
  if channel.toList ≠ [] then
    match findChannel channel.toList s_chanName 0 with
    | some iChannel => some (⟨dev.1, iChannel⟩, dev.2)
    | none =>
      match buildMessage channel.toList with
      | none => none
      | some b =>
        if formatReadsArgs b.text then none
        else some (⟨dev.1, m.m_channel⟩, dev.2 ++ [LogEntry.invalidChannel (String.mk b.text)])
  else some (⟨dev.1, m.m_channel⟩, dev.2)

/-- The measure after `Reload` calls on `m`, each with its own answers from
the host; `none` once a call is undefined. -/
def Measure.reloadsFrom : List ((Int → Int) × String) → Measure → Option Measure
  | [], m => some m
  | c :: cs, m =>
    match Reload c.1 c.2 m with
    | none => none
    | some r => Measure.reloadsFrom cs r.1

/-- A measure's life: the constructor followed by `Reload` calls. -/
def Measure.reloads (calls : List ((Int → Int) × String)) : Option Measure :=
  Measure.reloadsFrom calls Measure.init

/-! ## Histories of a device slot -/

/-- One call of `Device::Update`: the counter reading, the answers of
`XInputGetState`, and the device index passed. -/
structure Call where
  pcCur : Int
  XInputGetState : Int → PollResult
  devID : Int

/-- One step of a slot's history: the device after the call, and the status
of the most recent `XInputGetState` call issued for it so far (`none` while
none has been issued). -/
def Device.step (s_pcMult : ℚ) (st : Device × Option Nat) (c : Call) : Device × Option Nat :=
  ((st.1.Update s_pcMult c.pcCur c.XInputGetState c.devID).1,
    if (st.1.Update s_pcMult c.pcCur c.XInputGetState c.devID).2 = 0 then st.2
    else some (c.XInputGetState c.devID).code)

/-- The slot after the constructor and a sequence of `Device::Update` calls. -/
def Device.run (s_pcMult : ℚ) (calls : List Call) : Device × Option Nat :=
  calls.foldl (Device.step s_pcMult) (Device.init, none)

/-! ## Facts about the rounding model -/

/-- A value `m * 2^e` whose significand fits the precision and whose exponent
is not below the subnormal range is representable: rounding returns it. -/
theorem roundNE_exact (prec : Nat) (emin : Int) (m e : Int)
    (hm : |m| < 2 ^ prec) (he : emin - ((prec : Int) - 1) ≤ e) :
    roundNE prec emin ((m : ℚ) * (2 : ℚ) ^ e) = (m : ℚ) * (2 : ℚ) ^ e := by
  by_cases hx : (m : ℚ) * (2 : ℚ) ^ e = 0
  · simp [roundNE, hx]
  · have h2 : (0 : ℚ) < 2 := by norm_num
    have hpos : 0 < |(m : ℚ) * (2 : ℚ) ^ e| := abs_pos.mpr hx
    have hlt : |(m : ℚ) * (2 : ℚ) ^ e| < ((2 : ℕ) : ℚ) ^ ((prec : Int) + e) := by
      rw [abs_mul, abs_of_pos (zpow_pos h2 e), zpow_add₀ (by norm_num)]
      apply mul_lt_mul_of_pos_right _ (by positivity)
      have : ((|m| : Int) : ℚ) < ((2 ^ prec : Int) : ℚ) := by exact_mod_cast hm
      simpa using this
    have hlog : Int.log 2 |(m : ℚ) * (2 : ℚ) ^ e| < (prec : Int) + e :=
      (Int.lt_zpow_iff_log_lt (by norm_num) hpos).mp hlt
    have hE : max (Int.log 2 |(m : ℚ) * (2 : ℚ) ^ e|) emin - ((prec : Int) - 1) ≤ e := by
      rcases max_cases (Int.log 2 |(m : ℚ) * (2 : ℚ) ^ e|) emin with ⟨h, _⟩ | ⟨h, _⟩ <;>
        rw [h] <;> omega
    obtain ⟨d, hd⟩ := Int.le.dest hE
    have hy : (m : ℚ) * (2 : ℚ) ^ e /
        (2 : ℚ) ^ (max (Int.log 2 |(m : ℚ) * (2 : ℚ) ^ e|) emin - ((prec : Int) - 1))
        = ((m * 2 ^ d : Int) : ℚ) := by
      rw [mul_div_assoc, ← zpow_sub₀ (by norm_num)]
      have : e - (max (Int.log 2 |(m : ℚ) * (2 : ℚ) ^ e|) emin - ((prec : Int) - 1))
          = (d : Int) := by omega
      rw [this]; push_cast; simp
    simp only [roundNE, if_neg hx, hy, Int.floor_intCast, sub_self]
    norm_num
    rw [mul_assoc, ← zpow_natCast, ← zpow_add₀ (by norm_num)]
    congr 2
    omega

/-- Away from a tie, rounding yields the integer multiple of the last-place
unit that lies within half a unit of `x`; `k` is the binary exponent of `x`. -/
theorem roundNE_nearest (prec : Nat) (emin : Int) (x : ℚ) (k m : Int)
    (hk : (2 : ℚ) ^ k ≤ |x|) (hk1 : |x| < (2 : ℚ) ^ (k + 1))
    (hm : |x / (2 : ℚ) ^ (max k emin - ((prec : Int) - 1)) - m| < 1 / 2) :
    roundNE prec emin x = (m : ℚ) * (2 : ℚ) ^ (max k emin - ((prec : Int) - 1)) := by
  have hpos : 0 < |x| := lt_of_lt_of_le (zpow_pos (by norm_num) k) hk
  have hx : x ≠ 0 := abs_pos.mp hpos
  have hlog : Int.log 2 |x| = k := by
    have h1 : k ≤ Int.log 2 |x| :=
      (Int.zpow_le_iff_le_log (by norm_num) hpos).mp (by simpa using hk)
    have h2 : Int.log 2 |x| < k + 1 :=
      (Int.lt_zpow_iff_log_lt (by norm_num) hpos).mp (by simpa using hk1)
    omega
  simp only [roundNE, if_neg hx, hlog]
  generalize x / (2 : ℚ) ^ (max k emin - ((prec : Int) - 1)) = y at hm ⊢
  congr 1
  rw [abs_lt] at hm
  by_cases hym : (m : ℚ) ≤ y
  · have hfl : ⌊y⌋ = m := by
      rw [Int.floor_eq_iff]; constructor
      · exact hym
      · linarith
    rw [hfl, if_pos (by linarith)]
  · have hfl : ⌊y⌋ = m - 1 := by
      rw [Int.floor_eq_iff]; push_cast; constructor <;> linarith
    rw [hfl]; push_cast
    rw [if_neg (by linarith), if_pos (by linarith)]
    ring

/-- Integers below `2^53` in magnitude convert to `double` exactly. -/
theorem f64_intCast (n : Int) (hn : |n| < 2 ^ 53) : f64 (n : ℚ) = n := by
  have h := roundNE_exact 53 (-1022) n 0 hn (by norm_num)
  simpa [f64] using h

/-- A `double` stores `n / 2^k` exactly when `|n| < 2^53` and `k ≤ 1074`. -/
theorem f64_dyadic (n : Int) (k : Nat) (hn : |n| < 2 ^ 53) (hk : k ≤ 1074) :
    f64 ((n : ℚ) / 2 ^ k) = (n : ℚ) / 2 ^ k := by
  have h := roundNE_exact 53 (-1022) n (-(k : Int)) hn (by push_cast; omega)
  simpa [f64, div_eq_mul_inv] using h

/-- The `float` constant `1.0f/255` is `8421505 / 2^31` (bit pattern
`0x3B808081`), slightly above `1/255`. -/
theorem f32_inv255 : f32 (1 / 255) = 8421505 / 2 ^ 31 := by
  have h := roundNE_nearest 24 (-126) (1 / 255) (-8) 8421505
    (by norm_num [abs_of_pos]) (by norm_num [abs_of_pos]) (by norm_num [abs_lt])
  rw [f32, h]; norm_num

/-- The `float` constant `2.0f/65535` is `65537 / 2^31`, slightly below
`2/65535`. -/
theorem f32_two_div_65535 : f32 (2 / 65535) = 65537 / 2 ^ 31 := by
  have h := roundNE_nearest 24 (-126) (2 / 65535) (-15) 8388736
    (by norm_num [abs_of_pos]) (by norm_num [abs_of_pos]) (by norm_num [abs_lt])
  rw [f32, h]; norm_num

/-- The `double` constant `1.0/100`. -/
theorem QUERY_TIMEOUT_eq : QUERY_TIMEOUT = 5764607523034235 / 2 ^ 59 := by
  have h := roundNE_nearest 53 (-1022) (1 / 100) (-7) 5764607523034235
    (by norm_num [abs_of_pos]) (by norm_num [abs_of_pos]) (by norm_num [abs_lt])
  rw [QUERY_TIMEOUT, f64, h]; norm_num

/-- The trigger expression incurs no rounding beyond that of its `float`
constant: for a `BYTE` value the `double` product is exact. -/
theorem trigger_eq (b : Nat) (hb : b ≤ 255) : trigger b = (b : ℚ) * 8421505 / 2 ^ 31 := by
  unfold trigger
  rw [f32_inv255]
  have h1 : f64 (b : ℚ) = b := by
    have := f64_intCast (b : Int) (by rw [abs_of_nonneg (by omega)]; omega)
    simpa using this
  rw [h1]
  have h2 := f64_dyadic ((b : Int) * 8421505) 31
    (by rw [abs_of_nonneg (by omega)]; omega) (by norm_num)
  push_cast at h2
  rw [← h2]; congr 1; ring

/-- The axis expression incurs no rounding beyond that of its `float`
constant: for a `SHORT` value both `double` operations are exact. -/
theorem axis_eq (s : Int) (hlo : -32768 ≤ s) (hhi : s ≤ 32767) :
    axis s = ((s : ℚ) + 32768) * 65537 / 2 ^ 31 - 1 := by
  unfold axis
  rw [f32_two_div_65535]
  rw [f64_intCast (s + 32768) (by rw [abs_of_nonneg (by omega)]; omega)]
  have h2 := f64_dyadic ((s + 32768) * 65537) 31
    (by rw [abs_of_nonneg (by omega)]; omega) (by norm_num)
  have e2 : (((s + 32768 : Int) : ℚ)) * (65537 / 2 ^ 31)
      = (((s + 32768) * 65537 : Int) : ℚ) / 2 ^ 31 := by push_cast; ring
  rw [e2, h2]
  have h3 := f64_dyadic ((s + 32768) * 65537 - 2 ^ 31) 31
    (by rw [abs_lt]; constructor <;> omega) (by norm_num)
  have e3 : (((s + 32768) * 65537 : Int) : ℚ) / 2 ^ 31 - 1
      = (((s + 32768) * 65537 - 2 ^ 31 : Int) : ℚ) / 2 ^ 31 := by push_cast; ring
  rw [e3, h3]; push_cast; ring

/-! ## Facts about `Device::Update` -/

/-- With `s_pcMult = 2^-k` the elapsed-time expression is exact. -/
theorem elapsed_pow2 (k : Nat) (t p : Int) (hk : k ≤ 1074)
    (h : |wrap64 (t - p)| < 2 ^ 53) :
    elapsed (1 / 2 ^ k) t p = (wrap64 (t - p) : ℚ) / 2 ^ k := by
  unfold elapsed
  rw [f64_intCast _ h, mul_one_div, f64_dyadic _ _ h hk]

/-- One second after construction, at a counter frequency of `2^20` Hz, the
staleness gate lets the poll through. -/
theorem gate_open_example (d : Device) (h0 : d.m_pcPoll = 0) :
    ¬ upToDate (1 / 2 ^ 20) (2 ^ 20) d := by
  have hw : wrap64 (2 ^ 20 - 0) = 2 ^ 20 := by decide
  unfold upToDate
  rw [h0, elapsed_pow2 20 _ _ (by norm_num) (by rw [hw]; norm_num), hw, QUERY_TIMEOUT_eq]
  norm_num

/-- One tick after a poll at counter `2^20` the elapsed time is below
`QUERY_TIMEOUT`. -/
theorem gate_shut_example : elapsed (1 / 2 ^ 20) (2 ^ 20 + 1) (2 ^ 20) < QUERY_TIMEOUT := by
  have hw : wrap64 (2 ^ 20 + 1 - 2 ^ 20) = 1 := by decide
  rw [elapsed_pow2 20 _ _ (by norm_num) (by rw [hw]; norm_num), hw, QUERY_TIMEOUT_eq]
  norm_num

/-- A call that finds the device up to date changes nothing and polls nothing. -/
theorem Update_of_upToDate (s_pcMult : ℚ) (pcCur : Int) (xi : Int → PollResult) (devID : Int)
    (d : Device) (h : upToDate s_pcMult pcCur d) :
    d.Update s_pcMult pcCur xi devID = (d, 0) := by
  simp [Device.Update, h]

/-- A call that passes the gate polls once, stores the snapshot and the counter. -/
theorem Update_of_stale (s_pcMult : ℚ) (pcCur : Int) (xi : Int → PollResult) (devID : Int)
    (d : Device) (h : ¬ upToDate s_pcMult pcCur d) :
    d.Update s_pcMult pcCur xi devID =
      (⟨(xi devID).state, pcCur,
        if (xi devID).code = ERROR_SUCCESS then parseState (xi devID).state.Gamepad d.m_data
        else fun _ => 0⟩, 1) := by
  simp [Device.Update, h]

/-- Claim C1. Two consecutive `Device::Update` calls on one slot, the second
at a counter reading whose elapsed time since the first reading is below
`QUERY_TIMEOUT`, issue at most one hardware poll in total; and when the first
call polled, the second polls nothing and returns the device unchanged (raw
snapshot, timestamp and every channel), whatever the hardware would have
answered. -/
theorem update_twice_within_timeout (s_pcMult : ℚ) (t1 t2 : Int) (xi1 xi2 : Int → PollResult)
    (devID : Int) (d : Device) (hwin : elapsed s_pcMult t2 t1 < QUERY_TIMEOUT) :
    (d.Update s_pcMult t1 xi1 devID).2 +
        ((d.Update s_pcMult t1 xi1 devID).1.Update s_pcMult t2 xi2 devID).2 ≤ 1 ∧
      ((d.Update s_pcMult t1 xi1 devID).2 = 1 →
        ((d.Update s_pcMult t1 xi1 devID).1.Update s_pcMult t2 xi2 devID).2 = 0 ∧
        ((d.Update s_pcMult t1 xi1 devID).1.Update s_pcMult t2 xi2 devID).1 =
          (d.Update s_pcMult t1 xi1 devID).1) := by
  by_cases h1 : upToDate s_pcMult t1 d
  · rw [Update_of_upToDate _ _ _ _ _ h1]
    refine ⟨?_, fun h => absurd h (by simp)⟩
    by_cases h2 : upToDate s_pcMult t2 d
    · rw [Update_of_upToDate _ _ _ _ _ h2]; simp
    · rw [Update_of_stale _ _ _ _ _ h2]; simp
  · rw [Update_of_stale _ _ _ _ _ h1]
    have h2 : upToDate s_pcMult t2
        ⟨(xi1 devID).state, t1,
          if (xi1 devID).code = ERROR_SUCCESS then
            parseState (xi1 devID).state.Gamepad d.m_data
          else fun _ => 0⟩ := hwin
    rw [Update_of_upToDate _ _ _ _ _ h2]
    exact ⟨le_refl _, fun _ => ⟨rfl, rfl⟩⟩

/-- Witness for C1: a device polled one second after construction and
queried again one tick later. -/
theorem update_twice_within_timeout_witness :
    elapsed (1 / 2 ^ 20) (2 ^ 20 + 1) (2 ^ 20) < QUERY_TIMEOUT ∧
    (Device.init.Update (1 / 2 ^ 20) (2 ^ 20) (fun _ => ⟨0, ⟨1, ⟨1, 0, 0, 0, 0, 0, 0⟩⟩⟩) 0).2 = 1 ∧
    ((Device.init.Update (1 / 2 ^ 20) (2 ^ 20) (fun _ => ⟨0, ⟨1, ⟨1, 0, 0, 0, 0, 0, 0⟩⟩⟩) 0).1.Update
        (1 / 2 ^ 20) (2 ^ 20 + 1) (fun _ => ⟨1167, ⟨0, ⟨0, 0, 0, 0, 0, 0, 0⟩⟩⟩) 0).1 =
      (Device.init.Update (1 / 2 ^ 20) (2 ^ 20) (fun _ => ⟨0, ⟨1, ⟨1, 0, 0, 0, 0, 0, 0⟩⟩⟩) 0).1 :=
  have hp : (Device.init.Update (1 / 2 ^ 20) (2 ^ 20)
      (fun _ => ⟨0, ⟨1, ⟨1, 0, 0, 0, 0, 0, 0⟩⟩⟩) 0).2 = 1 := by
    rw [Update_of_stale _ _ _ _ _ (gate_open_example _ rfl)]
  ⟨gate_shut_example, hp,
    ((update_twice_within_timeout (1 / 2 ^ 20) (2 ^ 20) (2 ^ 20 + 1) _ _ 0 Device.init
      gate_shut_example).2 hp).2⟩

/-- Claim C2. A `Device::Update` call that passes the staleness gate and
whose poll reports failure leaves all 23 entries of `m_data` equal to 0.0,
`CHANNEL_CONNECTED` included, whatever the channels held before. -/
theorem failed_poll_zeroes_channels (s_pcMult : ℚ) (pcCur : Int) (xi : Int → PollResult)
    (devID : Int) (d : Device) (hgate : ¬ upToDate s_pcMult pcCur d)
    (hfail : (xi devID).code ≠ ERROR_SUCCESS) :
    (∀ i : Channel, (d.Update s_pcMult pcCur xi devID).1.m_data i = 0) ∧
      (d.Update s_pcMult pcCur xi devID).1.m_data CHANNEL_CONNECTED = 0 := by
  rw [Update_of_stale _ _ _ _ _ hgate]
  simp [hfail]

/-- Witness for C2: every channel holds 1.0 before a poll that fails with
`ERROR_DEVICE_NOT_CONNECTED` (1167). -/
theorem failed_poll_zeroes_channels_witness :
    ¬ upToDate (1 / 2 ^ 20) (2 ^ 20) ⟨Device.init.m_state, 0, fun _ => 1⟩ ∧
    ((fun _ : Int => (⟨1167, Device.init.m_state⟩ : PollResult)) 0).code ≠ ERROR_SUCCESS ∧
    ∀ i : Channel,
      ((⟨Device.init.m_state, 0, fun _ => 1⟩ : Device).Update (1 / 2 ^ 20) (2 ^ 20)
        (fun _ => ⟨1167, Device.init.m_state⟩) 0).1.m_data i = 0 :=
  ⟨gate_open_example _ rfl, by decide,
    (failed_poll_zeroes_channels (1 / 2 ^ 20) (2 ^ 20) (fun _ => ⟨1167, Device.init.m_state⟩) 0
      ⟨Device.init.m_state, 0, fun _ => 1⟩ (gate_open_example _ rfl) (by decide)).1⟩

/-- Claim C9. Every `Device::Update` call that passes the staleness gate
leaves `m_pcPoll` equal to the counter value it read, whether the poll
succeeded or failed; so a further call whose elapsed time since that reading
is below `QUERY_TIMEOUT` issues no poll and changes nothing, after a failed
poll exactly as after a successful one. -/
theorem timestamp_marked_after_poll (s_pcMult : ℚ) (pcCur : Int) (xi : Int → PollResult)
    (devID : Int) (d : Device) (hgate : ¬ upToDate s_pcMult pcCur d) :
    (d.Update s_pcMult pcCur xi devID).1.m_pcPoll = pcCur ∧
      (d.Update s_pcMult pcCur xi devID).2 = 1 ∧
      ∀ (t2 : Int) (xi2 : Int → PollResult),
        elapsed s_pcMult t2 pcCur < QUERY_TIMEOUT →
        (d.Update s_pcMult pcCur xi devID).1.Update s_pcMult t2 xi2 devID =
          ((d.Update s_pcMult pcCur xi devID).1, 0) := by
  rw [Update_of_stale _ _ _ _ _ hgate]
  refine ⟨rfl, rfl, fun t2 xi2 h => ?_⟩
  exact Update_of_upToDate _ _ _ _ _ h

/-- Witness for C9: a failed poll one second after construction. -/
theorem timestamp_marked_after_poll_witness :
    ¬ upToDate (1 / 2 ^ 20) (2 ^ 20) Device.init ∧
    (Device.init.Update (1 / 2 ^ 20) (2 ^ 20)
      (fun _ => ⟨1167, Device.init.m_state⟩) 3).1.m_pcPoll = 2 ^ 20 :=
  ⟨gate_open_example _ rfl,
    (timestamp_marked_after_poll (1 / 2 ^ 20) (2 ^ 20) (fun _ => ⟨1167, Device.init.m_state⟩) 3
      Device.init (gate_open_example _ rfl)).1⟩

/-! ## Facts about the raw-to-channel translation -/

/-- The code's bit test `(w & (1 << i)) != 0` reads bit `i` of `w`. -/
theorem digital_eq (w i : Nat) : digital w i = if w.testBit i then 1 else 0 := by
  unfold digital
  rw [Nat.one_shiftLeft, Nat.and_two_pow]
  cases w.testBit i <;> simp

theorem setChan_apply (data : ChannelData) (iChan : Int) (v : ℚ) (j : Channel) :
    setChan data iChan v j = if (j.val : Int) = iChan then v else data j := rfl

/-- The 21 stores of a successful parse, in program order (innermost first). -/
theorem parseState_unfold (gp : XINPUT_GAMEPAD) (data : ChannelData) :
    parseState gp data =
      setChan (setChan (setChan (setChan (setChan (setChan (setChan
      (setChan (setChan (setChan (setChan
      (setChan (setChan (setChan (setChan (setChan (setChan (setChan (setChan (setChan (setChan
        data
        4 (digital gp.wButtons 0)) 5 (digital gp.wButtons 1)) 6 (digital gp.wButtons 2))
        7 (digital gp.wButtons 3)) 18 (digital gp.wButtons 4)) 19 (digital gp.wButtons 5))
        16 (digital gp.wButtons 6)) 17 (digital gp.wButtons 7)) 12 (digital gp.wButtons 8))
        13 (digital gp.wButtons 9))
        9 (digital gp.wButtons 12)) 11 (digital gp.wButtons 13)) 10 (digital gp.wButtons 14))
        8 (digital gp.wButtons 15))
        14 (trigger gp.bLeftTrigger)) 15 (trigger gp.bRightTrigger))
        0 (axis gp.sThumbLX)) 1 (axis gp.sThumbLY)) 2 (axis gp.sThumbRX)) 3 (axis gp.sThumbRY))
        20 1 := rfl

/-- The channel array after a successful parse, entry by entry. -/
theorem parseState_list (gp : XINPUT_GAMEPAD) (data : ChannelData) :
    (List.finRange NUM_CHANNELS).map (parseState gp data) =
      [ axis gp.sThumbLX, axis gp.sThumbLY, axis gp.sThumbRX, axis gp.sThumbRY,
        digital gp.wButtons 0, digital gp.wButtons 1, digital gp.wButtons 2,
        digital gp.wButtons 3,
        digital gp.wButtons 15, digital gp.wButtons 12, digital gp.wButtons 14,
        digital gp.wButtons 13,
        digital gp.wButtons 8, digital gp.wButtons 9,
        trigger gp.bLeftTrigger, trigger gp.bRightTrigger,
        digital gp.wButtons 6, digital gp.wButtons 7, digital gp.wButtons 4,
        digital gp.wButtons 5,
        1, data CHANNEL_BATTERY_PAD, data CHANNEL_BATTERY_HEADSET ] := by
  rw [parseState_unfold]
  rfl

theorem parseState_axes (gp : XINPUT_GAMEPAD) (data : ChannelData) :
    parseState gp data CHANNEL_JOYL_X = axis gp.sThumbLX ∧
    parseState gp data CHANNEL_JOYL_Y = axis gp.sThumbLY ∧
    parseState gp data CHANNEL_JOYR_X = axis gp.sThumbRX ∧
    parseState gp data CHANNEL_JOYR_Y = axis gp.sThumbRY :=
  ⟨rfl, rfl, rfl, rfl⟩

theorem parseState_triggers (gp : XINPUT_GAMEPAD) (data : ChannelData) :
    parseState gp data CHANNEL_LTRIG2 = trigger gp.bLeftTrigger ∧
    parseState gp data CHANNEL_RTRIG2 = trigger gp.bRightTrigger :=
  ⟨rfl, rfl⟩

theorem parseState_connected (gp : XINPUT_GAMEPAD) (data : ChannelData) :
    parseState gp data CHANNEL_CONNECTED = 1 := rfl

theorem parseState_battery (gp : XINPUT_GAMEPAD) (data : ChannelData) :
    parseState gp data CHANNEL_BATTERY_PAD = data CHANNEL_BATTERY_PAD ∧
    parseState gp data CHANNEL_BATTERY_HEADSET = data CHANNEL_BATTERY_HEADSET :=
  ⟨rfl, rfl⟩

/-- A successful parse writes every channel except the two battery channels,
and what it writes depends on the snapshot alone. -/
theorem parseState_congr (gp : XINPUT_GAMEPAD) (d1 d2 : ChannelData) (i : Channel)
    (h1 : i ≠ CHANNEL_BATTERY_PAD) (h2 : i ≠ CHANNEL_BATTERY_HEADSET) :
    parseState gp d1 i = parseState gp d2 i := by
  rw [parseState_unfold, parseState_unfold]
  fin_cases i <;>
    first
    | exact absurd rfl h1
    | exact absurd rfl h2
    | simp [setChan_apply]

/-- After a call that passed the gate and polled successfully, `m_data` is
the parse of the snapshot over the previous array. -/
theorem Update_data_of_success (s_pcMult : ℚ) (pcCur : Int) (xi : Int → PollResult)
    (devID : Int) (d : Device) (hgate : ¬ upToDate s_pcMult pcCur d)
    (hok : (xi devID).code = ERROR_SUCCESS) :
    (d.Update s_pcMult pcCur xi devID).1.m_data = parseState (xi devID).state.Gamepad d.m_data := by
  rw [Update_of_stale _ _ _ _ _ hgate]
  simp [hok]

theorem axis_bounds (s : Int) (hlo : -32768 ≤ s) (hhi : s ≤ 32767) :
    -1 ≤ axis s ∧ axis s ≤ 1 := by
  rw [axis_eq s hlo hhi]
  have h1 : (-32768 : ℚ) ≤ s := by exact_mod_cast hlo
  have h2 : (s : ℚ) ≤ 32767 := by exact_mod_cast hhi
  constructor
  · have : 0 ≤ ((s : ℚ) + 32768) * 65537 / 2 ^ 31 :=
      div_nonneg (mul_nonneg (by linarith) (by norm_num)) (by norm_num)
    linarith
  · rw [sub_le_iff_le_add, div_le_iff₀ (by norm_num)]
    linarith

/-! ## Claims on the normalised values -/

/-- The trigger value lies at or above `b/255` and less than `2^-24` away. -/
theorem trigger_approx (b : Nat) (hb : b ≤ 255) :
    0 ≤ trigger b - (b : ℚ) / 255 ∧ trigger b - (b : ℚ) / 255 < 1 / 2 ^ 24 := by
  rw [trigger_eq b hb]
  have h0 : (0 : ℚ) ≤ b := Nat.cast_nonneg b
  have h1 : (b : ℚ) ≤ 255 := by exact_mod_cast hb
  have e : (b : ℚ) * 8421505 / 2 ^ 31 - (b : ℚ) / 255 = (b : ℚ) * (127 / (255 * 2 ^ 31)) := by
    ring
  rw [e]
  constructor
  · positivity
  · calc (b : ℚ) * (127 / (255 * 2 ^ 31)) ≤ 255 * (127 / (255 * 2 ^ 31)) :=
          mul_le_mul_of_nonneg_right h1 (by positivity)
      _ < 1 / 2 ^ 24 := by norm_num

/-- The axis value is the exact expression with the `float` constant, which
is at most `2^-31` below the expression with the exact quotient `2/65535`. -/
theorem axis_formula (s : Int) (hlo : -32768 ≤ s) (hhi : s ≤ 32767) :
    axis s = ((s : ℚ) + 32768) * f32 (2 / 65535) - 1 ∧
      |axis s - (((s : ℚ) + 32768) * (2 / 65535) - 1)| ≤ 1 / 2 ^ 31 := by
  rw [f32_two_div_65535, axis_eq s hlo hhi]
  have h1 : (-32768 : ℚ) ≤ s := by exact_mod_cast hlo
  have h2 : (s : ℚ) ≤ 32767 := by exact_mod_cast hhi
  refine ⟨by ring, ?_⟩
  have e : ((s : ℚ) + 32768) * 65537 / 2 ^ 31 - 1 - (((s : ℚ) + 32768) * (2 / 65535) - 1)
      = -(((s : ℚ) + 32768) * (1 / (65535 * 2 ^ 31))) := by ring
  rw [e, abs_neg, abs_of_nonneg (mul_nonneg (by linarith) (by positivity))]
  calc ((s : ℚ) + 32768) * (1 / (65535 * 2 ^ 31)) ≤ 65535 * (1 / (65535 * 2 ^ 31)) :=
        mul_le_mul_of_nonneg_right (by linarith) (by positivity)
    _ ≤ 1 / 2 ^ 31 := by norm_num

/-- Claim C3, counterexample. With the left trigger fully pressed (raw 255) a
successful poll stores `2147483775 / 2^31 = 1 + 2^-24 - 2^-31` in
`CHANNEL_LTRIG2`, which is neither `255/255` nor 1.0. -/
theorem trigger_full_scale_not_one :
    ¬ upToDate (1 / 2 ^ 20) (2 ^ 20) Device.init ∧
    (Device.init.Update (1 / 2 ^ 20) (2 ^ 20)
        (fun _ => ⟨ERROR_SUCCESS, ⟨1, ⟨0, 255, 0, 0, 0, 0, 0⟩⟩⟩) 0).1.m_data CHANNEL_LTRIG2
      = 2147483775 / 2147483648 ∧
    (Device.init.Update (1 / 2 ^ 20) (2 ^ 20)
        (fun _ => ⟨ERROR_SUCCESS, ⟨1, ⟨0, 255, 0, 0, 0, 0, 0⟩⟩⟩) 0).1.m_data CHANNEL_LTRIG2
      ≠ (255 : ℚ) / 255 := by
  have h : (Device.init.Update (1 / 2 ^ 20) (2 ^ 20)
        (fun _ => ⟨ERROR_SUCCESS, ⟨1, ⟨0, 255, 0, 0, 0, 0, 0⟩⟩⟩) 0).1.m_data CHANNEL_LTRIG2
      = 2147483775 / 2147483648 := by
    rw [Update_data_of_success _ _ _ _ _ (gate_open_example _ rfl) rfl,
      (parseState_triggers _ _).1, trigger_eq 255 (by norm_num)]
    norm_num
  refine ⟨gate_open_example _ rfl, h, ?_⟩
  rw [h]; norm_num

/-- Claim C3, amended. For trigger raw values in [0,255], after a successful
poll each trigger channel is at most `2^-24` away from `r/255` (the value is
the `double` product of `r` with the `float` constant `1.0f/255`), and a raw
value 0 gives exactly 0.0. -/
theorem trigger_channels_approx (s_pcMult : ℚ) (pcCur : Int) (xi : Int → PollResult)
    (devID : Int) (d : Device) (hgate : ¬ upToDate s_pcMult pcCur d)
    (hok : (xi devID).code = ERROR_SUCCESS)
    (hL : (xi devID).state.Gamepad.bLeftTrigger ≤ 255)
    (hR : (xi devID).state.Gamepad.bRightTrigger ≤ 255) :
    |(d.Update s_pcMult pcCur xi devID).1.m_data CHANNEL_LTRIG2
        - ((xi devID).state.Gamepad.bLeftTrigger : ℚ) / 255| < 1 / 2 ^ 24 ∧
    |(d.Update s_pcMult pcCur xi devID).1.m_data CHANNEL_RTRIG2
        - ((xi devID).state.Gamepad.bRightTrigger : ℚ) / 255| < 1 / 2 ^ 24 ∧
    ((xi devID).state.Gamepad.bLeftTrigger = 0 →
      (d.Update s_pcMult pcCur xi devID).1.m_data CHANNEL_LTRIG2 = 0) ∧
    ((xi devID).state.Gamepad.bRightTrigger = 0 →
      (d.Update s_pcMult pcCur xi devID).1.m_data CHANNEL_RTRIG2 = 0) := by
  rw [Update_data_of_success _ _ _ _ _ hgate hok, (parseState_triggers _ _).1,
    (parseState_triggers _ _).2]
  have aL := trigger_approx _ hL
  have aR := trigger_approx _ hR
  refine ⟨?_, ?_, ?_, ?_⟩
  · rw [abs_of_nonneg aL.1]; exact aL.2
  · rw [abs_of_nonneg aR.1]; exact aR.2
  · intro h; rw [h, trigger_eq 0 (by norm_num)]; norm_num
  · intro h; rw [h, trigger_eq 0 (by norm_num)]; norm_num

/-- Witness for C3 (amended): left trigger released, right trigger at 128. -/
theorem trigger_channels_approx_witness :
    ¬ upToDate (1 / 2 ^ 20) (2 ^ 20) Device.init ∧
    (Device.init.Update (1 / 2 ^ 20) (2 ^ 20)
        (fun _ => ⟨ERROR_SUCCESS, ⟨1, ⟨0, 0, 128, 0, 0, 0, 0⟩⟩⟩) 0).1.m_data CHANNEL_LTRIG2 = 0 ∧
    |(Device.init.Update (1 / 2 ^ 20) (2 ^ 20)
        (fun _ => ⟨ERROR_SUCCESS, ⟨1, ⟨0, 0, 128, 0, 0, 0, 0⟩⟩⟩) 0).1.m_data CHANNEL_RTRIG2
      - ((128 : Nat) : ℚ) / 255| < 1 / 2 ^ 24 :=
  have h := trigger_channels_approx (1 / 2 ^ 20) (2 ^ 20)
    (fun _ => ⟨ERROR_SUCCESS, ⟨1, ⟨0, 0, 128, 0, 0, 0, 0⟩⟩⟩) 0 Device.init
    (gate_open_example _ rfl) rfl (by decide) (by decide)
  ⟨gate_open_example _ rfl, h.2.2.1 rfl, h.2.1⟩

/-- Claim C4, counterexample. With the left stick centred (raw X = 0) a
successful poll stores `1/65536` in `CHANNEL_JOYL_X`, whereas
`(0+32768)*(2/65535) - 1.0` is `1/65535`. -/
theorem axis_centre_not_formula :
    ¬ upToDate (1 / 2 ^ 20) (2 ^ 20) Device.init ∧
    (Device.init.Update (1 / 2 ^ 20) (2 ^ 20)
        (fun _ => ⟨ERROR_SUCCESS, ⟨1, ⟨0, 0, 0, 0, 0, 0, 0⟩⟩⟩) 0).1.m_data CHANNEL_JOYL_X
      = 1 / 65536 ∧
    (Device.init.Update (1 / 2 ^ 20) (2 ^ 20)
        (fun _ => ⟨ERROR_SUCCESS, ⟨1, ⟨0, 0, 0, 0, 0, 0, 0⟩⟩⟩) 0).1.m_data CHANNEL_JOYL_X
      ≠ (((0 : Int) : ℚ) + 32768) * (2 / 65535) - 1 := by
  have h : (Device.init.Update (1 / 2 ^ 20) (2 ^ 20)
        (fun _ => ⟨ERROR_SUCCESS, ⟨1, ⟨0, 0, 0, 0, 0, 0, 0⟩⟩⟩) 0).1.m_data CHANNEL_JOYL_X
      = 1 / 65536 := by
    rw [Update_data_of_success _ _ _ _ _ (gate_open_example _ rfl) rfl,
      (parseState_axes _ _).1, axis_eq 0 (by norm_num) (by norm_num)]
    norm_num
  refine ⟨gate_open_example _ rfl, h, ?_⟩
  rw [h]; norm_num

/-- Claim C4, amended. For axis raw values in [-32768, 32767], after a
successful poll each thumbstick axis channel equals `(a+32768)*c - 1.0`
exactly, where `c = 65537 / 2^31` is the `float` constant `2.0f/65535`
(`2/65535` rounded to single precision); this is within `2^-31` of
`(a+32768)*(2/65535) - 1.0`. -/
theorem axis_channels_formula (s_pcMult : ℚ) (pcCur : Int) (xi : Int → PollResult)
    (devID : Int) (d : Device) (hgate : ¬ upToDate s_pcMult pcCur d)
    (hok : (xi devID).code = ERROR_SUCCESS) (hr : (xi devID).state.Gamepad.InRange) :
    f32 (2 / 65535) = 65537 / 2 ^ 31 ∧
    ∀ (c : Channel) (a : Int),
      (c, a) ∈ [(CHANNEL_JOYL_X, (xi devID).state.Gamepad.sThumbLX),
        (CHANNEL_JOYL_Y, (xi devID).state.Gamepad.sThumbLY),
        (CHANNEL_JOYR_X, (xi devID).state.Gamepad.sThumbRX),
        (CHANNEL_JOYR_Y, (xi devID).state.Gamepad.sThumbRY)] →
      (d.Update s_pcMult pcCur xi devID).1.m_data c = ((a : ℚ) + 32768) * f32 (2 / 65535) - 1 ∧
        |(d.Update s_pcMult pcCur xi devID).1.m_data c
          - (((a : ℚ) + 32768) * (2 / 65535) - 1)| ≤ 1 / 2 ^ 31 := by
  refine ⟨f32_two_div_65535, ?_⟩
  rw [Update_data_of_success _ _ _ _ _ hgate hok]
  obtain ⟨_, _, _, hLX, hLY, hRX, hRY⟩ := hr
  intro c a hp
  simp only [List.mem_cons, List.mem_singleton, List.not_mem_nil, or_false,
    Prod.mk.injEq] at hp
  rcases hp with ⟨h, h'⟩ | ⟨h, h'⟩ | ⟨h, h'⟩ | ⟨h, h'⟩ <;> subst h <;> subst h'
  · rw [(parseState_axes _ _).1]; exact axis_formula _ hLX.1 hLX.2
  · rw [(parseState_axes _ _).2.1]; exact axis_formula _ hLY.1 hLY.2
  · rw [(parseState_axes _ _).2.2.1]; exact axis_formula _ hRX.1 hRX.2
  · rw [(parseState_axes _ _).2.2.2]; exact axis_formula _ hRY.1 hRY.2

/-- Witness for C4 (amended): sticks at (0, 32767) and (-32768, 5). -/
theorem axis_channels_formula_witness :
    ¬ upToDate (1 / 2 ^ 20) (2 ^ 20) Device.init ∧
    (Device.init.Update (1 / 2 ^ 20) (2 ^ 20)
        (fun _ => ⟨ERROR_SUCCESS, ⟨1, ⟨0, 0, 0, 0, 32767, -32768, 5⟩⟩⟩) 0).1.m_data CHANNEL_JOYL_Y
      = (((32767 : Int) : ℚ) + 32768) * f32 (2 / 65535) - 1 :=
  ⟨gate_open_example _ rfl,
    ((axis_channels_formula (1 / 2 ^ 20) (2 ^ 20)
      (fun _ => ⟨ERROR_SUCCESS, ⟨1, ⟨0, 0, 0, 0, 32767, -32768, 5⟩⟩⟩) 0 Device.init
      (gate_open_example _ rfl) rfl (by norm_num [XINPUT_GAMEPAD.InRange])).2
      CHANNEL_JOYL_Y 32767 (List.mem_cons_of_mem _ (List.mem_cons_self _ _))).1⟩

/-- Claim C5. For axis raw values in [-32768, 32767], after a successful
poll every thumbstick axis channel lies in [-1.0, 1.0]; it is exactly -1.0 at
raw value -32768 and does not exceed 1.0 at raw value 32767 (it is
`1 - 2^-31` there). -/
theorem axis_channels_bounded (s_pcMult : ℚ) (pcCur : Int) (xi : Int → PollResult)
    (devID : Int) (d : Device) (hgate : ¬ upToDate s_pcMult pcCur d)
    (hok : (xi devID).code = ERROR_SUCCESS) (hr : (xi devID).state.Gamepad.InRange) :
    ∀ (c : Channel) (a : Int),
      (c, a) ∈ [(CHANNEL_JOYL_X, (xi devID).state.Gamepad.sThumbLX),
        (CHANNEL_JOYL_Y, (xi devID).state.Gamepad.sThumbLY),
        (CHANNEL_JOYR_X, (xi devID).state.Gamepad.sThumbRX),
        (CHANNEL_JOYR_Y, (xi devID).state.Gamepad.sThumbRY)] →
      (-1 ≤ (d.Update s_pcMult pcCur xi devID).1.m_data c ∧
        (d.Update s_pcMult pcCur xi devID).1.m_data c ≤ 1) ∧
      (a = -32768 → (d.Update s_pcMult pcCur xi devID).1.m_data c = -1) ∧
      (a = 32767 → (d.Update s_pcMult pcCur xi devID).1.m_data c = 1 - 1 / 2 ^ 31 ∧
        (d.Update s_pcMult pcCur xi devID).1.m_data c ≤ 1) := by
  rw [Update_data_of_success _ _ _ _ _ hgate hok]
  obtain ⟨_, _, _, hLX, hLY, hRX, hRY⟩ := hr
  have key : ∀ a : Int, -32768 ≤ a → a ≤ 32767 →
      (-1 ≤ axis a ∧ axis a ≤ 1) ∧ (a = -32768 → axis a = -1) ∧
      (a = 32767 → axis a = 1 - 1 / 2 ^ 31 ∧ axis a ≤ 1) := by
    intro a hlo hhi
    refine ⟨axis_bounds a hlo hhi, ?_, ?_⟩
    · intro h; subst h; rw [axis_eq _ (by norm_num) (by norm_num)]; norm_num
    · intro h; subst h; rw [axis_eq _ (by norm_num) (by norm_num)]; norm_num
  intro c a hp
  simp only [List.mem_cons, List.mem_singleton, List.not_mem_nil, or_false,
    Prod.mk.injEq] at hp
  rcases hp with ⟨h, h'⟩ | ⟨h, h'⟩ | ⟨h, h'⟩ | ⟨h, h'⟩ <;> subst h <;> subst h'
  · rw [(parseState_axes _ _).1]; exact key _ hLX.1 hLX.2
  · rw [(parseState_axes _ _).2.1]; exact key _ hLY.1 hLY.2
  · rw [(parseState_axes _ _).2.2.1]; exact key _ hRX.1 hRX.2
  · rw [(parseState_axes _ _).2.2.2]; exact key _ hRY.1 hRY.2

/-- Witness for C5: the left stick at its two extremes. -/
theorem axis_channels_bounded_witness :
    ¬ upToDate (1 / 2 ^ 20) (2 ^ 20) Device.init ∧
    (Device.init.Update (1 / 2 ^ 20) (2 ^ 20)
        (fun _ => ⟨ERROR_SUCCESS, ⟨1, ⟨0, 0, 0, -32768, 32767, 0, 5⟩⟩⟩) 0).1.m_data CHANNEL_JOYL_X
      = -1 ∧
    (Device.init.Update (1 / 2 ^ 20) (2 ^ 20)
        (fun _ => ⟨ERROR_SUCCESS, ⟨1, ⟨0, 0, 0, -32768, 32767, 0, 5⟩⟩⟩) 0).1.m_data CHANNEL_JOYL_Y
      ≤ 1 :=
  have h := axis_channels_bounded (1 / 2 ^ 20) (2 ^ 20)
    (fun _ => ⟨ERROR_SUCCESS, ⟨1, ⟨0, 0, 0, -32768, 32767, 0, 5⟩⟩⟩) 0 Device.init
    (gate_open_example _ rfl) rfl (by norm_num [XINPUT_GAMEPAD.InRange])
  ⟨gate_open_example _ rfl,
    (h CHANNEL_JOYL_X (-32768) (List.mem_cons_self _ _)).2.1 rfl,
    (h CHANNEL_JOYL_Y 32767 (List.mem_cons_of_mem _ (List.mem_cons_self _ _))).1.2⟩

/-- Claim C6, the code at the failing input. With a trigger fully pressed
(raw 255, inside the `BYTE` range) a successful poll stores
`2147483775 / 2^31 = 1 + 2^-24 - 2^-31` in the trigger channel, which lies
above 1.0: the `float` constant `1.0f/255` is rounded up. -/
theorem trigger_full_scale_exceeds_one :
    ¬ upToDate (1 / 2 ^ 20) (2 ^ 20) Device.init ∧
    (⟨0, 255, 255, 0, 0, 0, 0⟩ : XINPUT_GAMEPAD).InRange ∧
    (Device.init.Update (1 / 2 ^ 20) (2 ^ 20)
        (fun _ => ⟨ERROR_SUCCESS, ⟨1, ⟨0, 255, 255, 0, 0, 0, 0⟩⟩⟩) 0).1.m_data CHANNEL_RTRIG2
      = 1 + 1 / 2 ^ 24 - 1 / 2 ^ 31 ∧
    1 < (Device.init.Update (1 / 2 ^ 20) (2 ^ 20)
        (fun _ => ⟨ERROR_SUCCESS, ⟨1, ⟨0, 255, 255, 0, 0, 0, 0⟩⟩⟩) 0).1.m_data CHANNEL_RTRIG2 ∧
    1 < (Device.init.Update (1 / 2 ^ 20) (2 ^ 20)
        (fun _ => ⟨ERROR_SUCCESS, ⟨1, ⟨0, 255, 255, 0, 0, 0, 0⟩⟩⟩) 0).1.m_data CHANNEL_LTRIG2 := by
  have hR : (Device.init.Update (1 / 2 ^ 20) (2 ^ 20)
        (fun _ => ⟨ERROR_SUCCESS, ⟨1, ⟨0, 255, 255, 0, 0, 0, 0⟩⟩⟩) 0).1.m_data CHANNEL_RTRIG2
      = 1 + 1 / 2 ^ 24 - 1 / 2 ^ 31 := by
    rw [Update_data_of_success _ _ _ _ _ (gate_open_example _ rfl) rfl,
      (parseState_triggers _ _).2, trigger_eq 255 (by norm_num)]
    norm_num
  have hL : (Device.init.Update (1 / 2 ^ 20) (2 ^ 20)
        (fun _ => ⟨ERROR_SUCCESS, ⟨1, ⟨0, 255, 255, 0, 0, 0, 0⟩⟩⟩) 0).1.m_data CHANNEL_LTRIG2
      = 1 + 1 / 2 ^ 24 - 1 / 2 ^ 31 := by
    rw [Update_data_of_success _ _ _ _ _ (gate_open_example _ rfl) rfl,
      (parseState_triggers _ _).1, trigger_eq 255 (by norm_num)]
    norm_num
  refine ⟨gate_open_example _ rfl, by norm_num [XINPUT_GAMEPAD.InRange], hR, ?_, ?_⟩
  · rw [hR]; norm_num
  · rw [hL]; norm_num

/-- The trigger value stays inside [0, 1) for every raw value below 255. -/
theorem trigger_below_full_scale (b : Nat) (hb : b ≤ 254) :
    0 ≤ trigger b ∧ trigger b < 1 := by
  rw [trigger_eq b (by omega)]
  have h0 : (0 : ℚ) ≤ b := Nat.cast_nonneg b
  have h1 : (b : ℚ) ≤ 254 := by exact_mod_cast hb
  constructor
  · positivity
  · rw [div_lt_iff₀ (by norm_num)]
    linarith

/-- The 14 button bits and the channel each one is stored in. -/
theorem parseState_button (gp : XINPUT_GAMEPAD) (data : ChannelData) (i : Nat) (c : Channel)
    (h : (i, c) ∈ [(0, CHANNEL_DPAD_U), (1, CHANNEL_DPAD_D), (2, CHANNEL_DPAD_L),
        (3, CHANNEL_DPAD_R), (4, CHANNEL_START), (5, CHANNEL_BACK), (6, CHANNEL_JOYL_CLICK),
        (7, CHANNEL_JOYR_CLICK), (8, CHANNEL_LTRIG1), (9, CHANNEL_RTRIG1),
        (12, CHANNEL_FACE_D), (13, CHANNEL_FACE_R), (14, CHANNEL_FACE_L),
        (15, CHANNEL_FACE_U)]) :
    s_buttonChan[i]? = some (c.val : Int) ∧
      parseState gp data c = if gp.wButtons.testBit i then 1 else 0 := by
  simp only [List.mem_cons, List.mem_singleton, List.not_mem_nil, or_false,
    Prod.mk.injEq] at h
  rcases h with ⟨h1, h2⟩ | ⟨h1, h2⟩ | ⟨h1, h2⟩ | ⟨h1, h2⟩ | ⟨h1, h2⟩ | ⟨h1, h2⟩ | ⟨h1, h2⟩ |
    ⟨h1, h2⟩ | ⟨h1, h2⟩ | ⟨h1, h2⟩ | ⟨h1, h2⟩ | ⟨h1, h2⟩ | ⟨h1, h2⟩ | ⟨h1, h2⟩ <;>
    subst h1 <;> subst h2 <;> exact ⟨rfl, by rw [← digital_eq]; rfl⟩

/-- Claim C7. After a successful poll, for every button bit `i` in 0..15
other than the reserved bits 10 and 11, the channel `s_buttonChan[i]` is 1.0
when bit `i` of `wButtons` is set and 0.0 when it is clear; the table sends
bits 0..9 to Dpad_U, Dpad_D, Dpad_L, Dpad_R, Start, Back, JoyL_Click,
JoyR_Click, LTrig1, RTrig1 and bits 12..15 to Face_D, Face_R, Face_L, Face_U;
these 14 channels are pairwise distinct; and with `wButtons = 1` Dpad_U is 1.0
and the other 13 digital channels are 0.0. -/
theorem button_channels (s_pcMult : ℚ) (pcCur : Int) (xi : Int → PollResult)
    (devID : Int) (d : Device) (hgate : ¬ upToDate s_pcMult pcCur d)
    (hok : (xi devID).code = ERROR_SUCCESS) :
    (∀ (i : Nat) (c : Channel),
      (i, c) ∈ [(0, CHANNEL_DPAD_U), (1, CHANNEL_DPAD_D), (2, CHANNEL_DPAD_L),
        (3, CHANNEL_DPAD_R), (4, CHANNEL_START), (5, CHANNEL_BACK), (6, CHANNEL_JOYL_CLICK),
        (7, CHANNEL_JOYR_CLICK), (8, CHANNEL_LTRIG1), (9, CHANNEL_RTRIG1),
        (12, CHANNEL_FACE_D), (13, CHANNEL_FACE_R), (14, CHANNEL_FACE_L),
        (15, CHANNEL_FACE_U)] →
      s_buttonChan[i]? = some (c.val : Int) ∧
      (d.Update s_pcMult pcCur xi devID).1.m_data c =
        if (xi devID).state.Gamepad.wButtons.testBit i then 1 else 0) ∧
    (∀ i : Nat, i < 16 → i ≠ 10 → i ≠ 11 →
      ∃ c : Channel, s_buttonChan[i]? = some (c.val : Int) ∧
        (d.Update s_pcMult pcCur xi devID).1.m_data c =
          if (xi devID).state.Gamepad.wButtons.testBit i then 1 else 0) ∧
    [CHANNEL_DPAD_U, CHANNEL_DPAD_D, CHANNEL_DPAD_L, CHANNEL_DPAD_R, CHANNEL_START,
      CHANNEL_BACK, CHANNEL_JOYL_CLICK, CHANNEL_JOYR_CLICK, CHANNEL_LTRIG1, CHANNEL_RTRIG1,
      CHANNEL_FACE_D, CHANNEL_FACE_R, CHANNEL_FACE_L, CHANNEL_FACE_U].Nodup ∧
    ((xi devID).state.Gamepad.wButtons = 1 →
      (d.Update s_pcMult pcCur xi devID).1.m_data CHANNEL_DPAD_U = 1 ∧
      ∀ c ∈ [CHANNEL_DPAD_D, CHANNEL_DPAD_L, CHANNEL_DPAD_R, CHANNEL_START,
        CHANNEL_BACK, CHANNEL_JOYL_CLICK, CHANNEL_JOYR_CLICK, CHANNEL_LTRIG1, CHANNEL_RTRIG1,
        CHANNEL_FACE_D, CHANNEL_FACE_R, CHANNEL_FACE_L, CHANNEL_FACE_U],
        (d.Update s_pcMult pcCur xi devID).1.m_data c = 0) := by
  rw [Update_data_of_success _ _ _ _ _ hgate hok]
  have h1 := parseState_button (xi devID).state.Gamepad d.m_data
  refine ⟨h1, ?_, by decide, ?_⟩
  · intro i hi h10 h11
    interval_cases i
    · exact ⟨_, h1 0 CHANNEL_DPAD_U (by simp)⟩
    · exact ⟨_, h1 1 CHANNEL_DPAD_D (by simp)⟩
    · exact ⟨_, h1 2 CHANNEL_DPAD_L (by simp)⟩
    · exact ⟨_, h1 3 CHANNEL_DPAD_R (by simp)⟩
    · exact ⟨_, h1 4 CHANNEL_START (by simp)⟩
    · exact ⟨_, h1 5 CHANNEL_BACK (by simp)⟩
    · exact ⟨_, h1 6 CHANNEL_JOYL_CLICK (by simp)⟩
    · exact ⟨_, h1 7 CHANNEL_JOYR_CLICK (by simp)⟩
    · exact ⟨_, h1 8 CHANNEL_LTRIG1 (by simp)⟩
    · exact ⟨_, h1 9 CHANNEL_RTRIG1 (by simp)⟩
    · exact absurd rfl h10
    · exact absurd rfl h11
    · exact ⟨_, h1 12 CHANNEL_FACE_D (by simp)⟩
    · exact ⟨_, h1 13 CHANNEL_FACE_R (by simp)⟩
    · exact ⟨_, h1 14 CHANNEL_FACE_L (by simp)⟩
    · exact ⟨_, h1 15 CHANNEL_FACE_U (by simp)⟩
  · intro hw
    constructor
    · rw [(h1 0 CHANNEL_DPAD_U (by simp)).2, hw]; simp
    · intro c hc
      simp only [List.mem_cons, List.mem_singleton, List.not_mem_nil, or_false] at hc
      rcases hc with h | h | h | h | h | h | h | h | h | h | h | h | h <;> subst h
      · rw [(h1 1 CHANNEL_DPAD_D (by simp)).2, hw]; simp; decide
      · rw [(h1 2 CHANNEL_DPAD_L (by simp)).2, hw]; simp; decide
      · rw [(h1 3 CHANNEL_DPAD_R (by simp)).2, hw]; simp; decide
      · rw [(h1 4 CHANNEL_START (by simp)).2, hw]; simp; decide
      · rw [(h1 5 CHANNEL_BACK (by simp)).2, hw]; simp; decide
      · rw [(h1 6 CHANNEL_JOYL_CLICK (by simp)).2, hw]; simp; decide
      · rw [(h1 7 CHANNEL_JOYR_CLICK (by simp)).2, hw]; simp; decide
      · rw [(h1 8 CHANNEL_LTRIG1 (by simp)).2, hw]; simp; decide
      · rw [(h1 9 CHANNEL_RTRIG1 (by simp)).2, hw]; simp; decide
      · rw [(h1 12 CHANNEL_FACE_D (by simp)).2, hw]; simp; decide
      · rw [(h1 13 CHANNEL_FACE_R (by simp)).2, hw]; simp; decide
      · rw [(h1 14 CHANNEL_FACE_L (by simp)).2, hw]; simp; decide
      · rw [(h1 15 CHANNEL_FACE_U (by simp)).2, hw]; simp; decide

/-- Witness for C7: only the DPAD-up bit set, over a prior array of ones. -/
theorem button_channels_witness :
    ¬ upToDate (1 / 2 ^ 20) (2 ^ 20) ⟨Device.init.m_state, 0, fun _ => 1⟩ ∧
    ((⟨Device.init.m_state, 0, fun _ => 1⟩ : Device).Update (1 / 2 ^ 20) (2 ^ 20)
        (fun _ => ⟨ERROR_SUCCESS, ⟨1, ⟨1, 0, 0, 0, 0, 0, 0⟩⟩⟩) 0).1.m_data CHANNEL_DPAD_U = 1 ∧
    ((⟨Device.init.m_state, 0, fun _ => 1⟩ : Device).Update (1 / 2 ^ 20) (2 ^ 20)
        (fun _ => ⟨ERROR_SUCCESS, ⟨1, ⟨1, 0, 0, 0, 0, 0, 0⟩⟩⟩) 0).1.m_data CHANNEL_FACE_U = 0 :=
  have h := (button_channels (1 / 2 ^ 20) (2 ^ 20)
    (fun _ => ⟨ERROR_SUCCESS, ⟨1, ⟨1, 0, 0, 0, 0, 0, 0⟩⟩⟩) 0
    ⟨Device.init.m_state, 0, fun _ => 1⟩ (gate_open_example _ rfl) rfl).2.2.2 rfl
  ⟨gate_open_example _ rfl, h.1,
    h.2 CHANNEL_FACE_U (by simp)⟩


/-! ## The exported `Update` -/

/-- For a measure bound to slot `s` and channel `c` the exported `Update`
runs `Device::Update` on `s_device[s]` and returns entry `c` of its `m_data`. -/
theorem Update_bound (pcCur : Int) (xi : Int → PollResult) (g : Statics)
    (s : Fin MAX_XINPUT_DEVICES) (c : Channel) :
    Update pcCur xi ⟨s.val, c.val⟩ g =
      some ⟨((g.s_device s).Update g.s_pcMult pcCur xi s.val).1.m_data c,
        ⟨g.s_pcMult,
          Function.update g.s_device s ((g.s_device s).Update g.s_pcMult pcCur xi s.val).1⟩,
        ((g.s_device s).Update g.s_pcMult pcCur xi s.val).2⟩ := by
  have hs : (0 : Int) ≤ s.val ∧ (s.val : Int) < MAX_XINPUT_DEVICES := by
    have := s.isLt; omega
  have hc : (0 : Int) ≤ c.val ∧ (c.val : Int) < NUM_CHANNELS := by
    have := c.isLt; omega
  have e1 : (⟨((s.val : Nat) : Int).toNat, by have := s.isLt; omega⟩ : Fin MAX_XINPUT_DEVICES) = s :=
    Fin.ext (by simp)
  have e2 : (⟨((c.val : Nat) : Int).toNat, by have := c.isLt; omega⟩ : Fin NUM_CHANNELS) = c :=
    Fin.ext (by simp)
  unfold Update
  rw [dif_pos ⟨hs, hc⟩]
  simp only [e1, e2]

/-- Claim C8. Two measures bound to the same slot with channels `c1` and
`c2`: when the exported `Update` of the first passes the staleness gate at
time `t1` (and so polls) and the exported `Update` of the second runs at a
time `t2` whose elapsed time since `t1` is below `QUERY_TIMEOUT`, the second
call issues no hardware poll and returns entry `c2` of the channel array the
first call's poll produced; and in general the exported `Update` returns
`s_device[m_devID].m_data[m_channel]` of the slot after `Device::Update`. -/
theorem shared_slot_query (g : Statics) (slot : Fin MAX_XINPUT_DEVICES) (c1 c2 : Channel)
    (t1 t2 : Int) (xi1 xi2 : Int → PollResult)
    (hgate : ¬ upToDate g.s_pcMult t1 (g.s_device slot))
    (hwin : elapsed g.s_pcMult t2 t1 < QUERY_TIMEOUT) :
    (∃ o1 o2 : Outcome,
      Update t1 xi1 ⟨slot.val, c1.val⟩ g = some o1 ∧ o1.polls = 1 ∧
      Update t2 xi2 ⟨slot.val, c2.val⟩ o1.statics = some o2 ∧ o2.polls = 0 ∧
      o1.value = ((g.s_device slot).Update g.s_pcMult t1 xi1 slot.val).1.m_data c1 ∧
      o2.value = ((g.s_device slot).Update g.s_pcMult t1 xi1 slot.val).1.m_data c2 ∧
      o2.statics.s_device slot = o1.statics.s_device slot) ∧
    (∀ (h : Statics) (t : Int) (xi : Int → PollResult) (s : Fin MAX_XINPUT_DEVICES)
        (c : Channel),
      ∃ o : Outcome, Update t xi ⟨s.val, c.val⟩ h = some o ∧
        o.statics.s_device s = ((h.s_device s).Update h.s_pcMult t xi s.val).1 ∧
        o.value = (o.statics.s_device s).m_data c) := by
  have hD : upToDate g.s_pcMult t2
      ((g.s_device slot).Update g.s_pcMult t1 xi1 slot.val).1 := by
    rw [Update_of_stale _ _ _ _ _ hgate]
    exact hwin
  have h2 := Update_of_upToDate g.s_pcMult t2 xi2 slot.val _ hD
  constructor
  · refine ⟨_, _, Update_bound t1 xi1 g slot c1, ?_, Update_bound t2 xi2 _ slot c2, ?_, rfl,
      ?_, ?_⟩
    · rw [Update_of_stale _ _ _ _ _ hgate]
    · simp only [Function.update_same]
      rw [h2]
    · simp only [Function.update_same]
      rw [h2]
    · simp only [Function.update_same]
      rw [h2]
  · intro h t xi s c
    exact ⟨_, Update_bound t xi h s c, by simp, by simp⟩

/-- Witness for C8: one measure reads Dpad_U of slot 1 one second after
start-up, another reads LTrig2 of the same slot one tick later. -/
theorem shared_slot_query_witness :
    ¬ upToDate (1 / 2 ^ 20) (2 ^ 20) Device.init ∧
    elapsed (1 / 2 ^ 20) (2 ^ 20 + 1) (2 ^ 20) < QUERY_TIMEOUT ∧
    ∃ o1 o2 : Outcome,
      Update (2 ^ 20) (fun _ => ⟨ERROR_SUCCESS, ⟨1, ⟨1, 255, 0, 0, 0, 0, 0⟩⟩⟩)
        ⟨(1 : Fin MAX_XINPUT_DEVICES).val, CHANNEL_DPAD_U.val⟩
        ⟨1 / 2 ^ 20, fun _ => Device.init⟩ = some o1 ∧
      Update (2 ^ 20 + 1) (fun _ => ⟨1167, Device.init.m_state⟩)
        ⟨(1 : Fin MAX_XINPUT_DEVICES).val, CHANNEL_LTRIG2.val⟩ o1.statics = some o2 ∧
      o2.polls = 0 :=
  have h := (shared_slot_query ⟨1 / 2 ^ 20, fun _ => Device.init⟩ 1 CHANNEL_DPAD_U
    CHANNEL_LTRIG2 (2 ^ 20) (2 ^ 20 + 1)
    (fun _ => ⟨ERROR_SUCCESS, ⟨1, ⟨1, 255, 0, 0, 0, 0, 0⟩⟩⟩)
    (fun _ => ⟨1167, Device.init.m_state⟩) (gate_open_example _ rfl) gate_shut_example).1
  ⟨gate_open_example _ rfl, gate_shut_example,
    h.elim fun o1 h1 => h1.elim fun o2 h2 => ⟨o1, o2, h2.1, h2.2.2.1, h2.2.2.2.1⟩⟩


/-! ## Scenario: sticks centred, nothing pressed -/

/-- Claim C11, counterexample. With button word 0 and all four stick values
0 a successful poll stores `1/65536` in `CHANNEL_JOYL_X`: a positive number,
more than `3/100000` away from `-0.000015`; and `(0+32768)*2/65535 - 1` is
`1/65535`, positive as well. -/
theorem centred_stick_is_positive :
    ¬ upToDate (1 / 2 ^ 20) (2 ^ 20) Device.init ∧
    (Device.init.Update (1 / 2 ^ 20) (2 ^ 20)
        (fun _ => ⟨ERROR_SUCCESS, ⟨1, ⟨0, 0, 0, 0, 0, 0, 0⟩⟩⟩) 0).1.m_data CHANNEL_JOYL_X
      = 1 / 65536 ∧
    3 / 100000 < |(Device.init.Update (1 / 2 ^ 20) (2 ^ 20)
        (fun _ => ⟨ERROR_SUCCESS, ⟨1, ⟨0, 0, 0, 0, 0, 0, 0⟩⟩⟩) 0).1.m_data CHANNEL_JOYL_X
      - (-15 / 1000000)| ∧
    ((0 : ℚ) + 32768) * 2 / 65535 - 1 = 1 / 65535 := by
  have h : (Device.init.Update (1 / 2 ^ 20) (2 ^ 20)
        (fun _ => ⟨ERROR_SUCCESS, ⟨1, ⟨0, 0, 0, 0, 0, 0, 0⟩⟩⟩) 0).1.m_data CHANNEL_JOYL_X
      = 1 / 65536 := by
    rw [Update_data_of_success _ _ _ _ _ (gate_open_example _ rfl) rfl,
      (parseState_axes _ _).1, axis_eq 0 (by norm_num) (by norm_num)]
    norm_num
  refine ⟨gate_open_example _ rfl, h, ?_, by norm_num⟩
  rw [h, abs_of_pos (by norm_num)]
  norm_num

/-- Claim C11, amended. For a connected device whose snapshot has button
word 0 and all four thumbstick raw values 0, a successful poll yields JoyL_X
and JoyL_Y (and JoyR_X, JoyR_Y) equal to `2^-16 = 1/65536`, approximately
`+0.000015` (within `0.000001` of it), every one of the 14 digital channels
equal to 0.0, and Connected equal to 1.0. -/
theorem centred_released_scenario (s_pcMult : ℚ) (pcCur : Int) (xi : Int → PollResult)
    (devID : Int) (d : Device) (hgate : ¬ upToDate s_pcMult pcCur d)
    (hok : (xi devID).code = ERROR_SUCCESS)
    (hw : (xi devID).state.Gamepad.wButtons = 0)
    (hLX : (xi devID).state.Gamepad.sThumbLX = 0) (hLY : (xi devID).state.Gamepad.sThumbLY = 0)
    (hRX : (xi devID).state.Gamepad.sThumbRX = 0) (hRY : (xi devID).state.Gamepad.sThumbRY = 0) :
    (∀ c ∈ [CHANNEL_JOYL_X, CHANNEL_JOYL_Y, CHANNEL_JOYR_X, CHANNEL_JOYR_Y],
      (d.Update s_pcMult pcCur xi devID).1.m_data c = 1 / 65536 ∧
      |(d.Update s_pcMult pcCur xi devID).1.m_data c - 15 / 1000000| < 1 / 1000000) ∧
    (∀ c ∈ [CHANNEL_DPAD_U, CHANNEL_DPAD_D, CHANNEL_DPAD_L, CHANNEL_DPAD_R, CHANNEL_START,
        CHANNEL_BACK, CHANNEL_JOYL_CLICK, CHANNEL_JOYR_CLICK, CHANNEL_LTRIG1, CHANNEL_RTRIG1,
        CHANNEL_FACE_D, CHANNEL_FACE_R, CHANNEL_FACE_L, CHANNEL_FACE_U],
      (d.Update s_pcMult pcCur xi devID).1.m_data c = 0) ∧
    (d.Update s_pcMult pcCur xi devID).1.m_data CHANNEL_CONNECTED = 1 := by
  rw [Update_data_of_success _ _ _ _ _ hgate hok]
  have hax : axis 0 = 1 / 65536 := by
    rw [axis_eq 0 (by norm_num) (by norm_num)]; norm_num
  have h1 := parseState_button (xi devID).state.Gamepad d.m_data
  refine ⟨?_, ?_, parseState_connected _ _⟩
  · intro c hc
    simp only [List.mem_cons, List.mem_singleton, List.not_mem_nil, or_false] at hc
    have hv : parseState (xi devID).state.Gamepad d.m_data c = 1 / 65536 := by
      rcases hc with h | h | h | h <;> subst h
      · rw [(parseState_axes _ _).1, hLX, hax]
      · rw [(parseState_axes _ _).2.1, hLY, hax]
      · rw [(parseState_axes _ _).2.2.1, hRX, hax]
      · rw [(parseState_axes _ _).2.2.2, hRY, hax]
    refine ⟨hv, ?_⟩
    rw [hv, abs_lt]; constructor <;> norm_num
  · intro c hc
    simp only [List.mem_cons, List.mem_singleton, List.not_mem_nil, or_false] at hc
    rcases hc with h | h | h | h | h | h | h | h | h | h | h | h | h | h <;> subst h
    · rw [(h1 0 CHANNEL_DPAD_U (by simp)).2, hw]; simp
    · rw [(h1 1 CHANNEL_DPAD_D (by simp)).2, hw]; simp
    · rw [(h1 2 CHANNEL_DPAD_L (by simp)).2, hw]; simp
    · rw [(h1 3 CHANNEL_DPAD_R (by simp)).2, hw]; simp
    · rw [(h1 4 CHANNEL_START (by simp)).2, hw]; simp
    · rw [(h1 5 CHANNEL_BACK (by simp)).2, hw]; simp
    · rw [(h1 6 CHANNEL_JOYL_CLICK (by simp)).2, hw]; simp
    · rw [(h1 7 CHANNEL_JOYR_CLICK (by simp)).2, hw]; simp
    · rw [(h1 8 CHANNEL_LTRIG1 (by simp)).2, hw]; simp
    · rw [(h1 9 CHANNEL_RTRIG1 (by simp)).2, hw]; simp
    · rw [(h1 12 CHANNEL_FACE_D (by simp)).2, hw]; simp
    · rw [(h1 13 CHANNEL_FACE_R (by simp)).2, hw]; simp
    · rw [(h1 14 CHANNEL_FACE_L (by simp)).2, hw]; simp
    · rw [(h1 15 CHANNEL_FACE_U (by simp)).2, hw]; simp

/-- Witness for C11 (amended): the first poll of a fresh slot, triggers
half pressed. -/
theorem centred_released_scenario_witness :
    ¬ upToDate (1 / 2 ^ 20) (2 ^ 20) Device.init ∧
    (Device.init.Update (1 / 2 ^ 20) (2 ^ 20)
        (fun _ => ⟨ERROR_SUCCESS, ⟨1, ⟨0, 128, 128, 0, 0, 0, 0⟩⟩⟩) 0).1.m_data CHANNEL_JOYL_Y
      = 1 / 65536 ∧
    (Device.init.Update (1 / 2 ^ 20) (2 ^ 20)
        (fun _ => ⟨ERROR_SUCCESS, ⟨1, ⟨0, 128, 128, 0, 0, 0, 0⟩⟩⟩) 0).1.m_data CHANNEL_CONNECTED
      = 1 :=
  have h := centred_released_scenario (1 / 2 ^ 20) (2 ^ 20)
    (fun _ => ⟨ERROR_SUCCESS, ⟨1, ⟨0, 128, 128, 0, 0, 0, 0⟩⟩⟩) 0 Device.init
    (gate_open_example _ rfl) rfl rfl rfl rfl rfl rfl
  ⟨gate_open_example _ rfl,
    (h.1 CHANNEL_JOYL_Y (List.mem_cons_of_mem _ (List.mem_cons_self _ _))).1, h.2.2⟩


/-! ## Facts about `Reload` -/

/-- `_wcsicmp` returns 0 exactly for strings equal up to letter case. -/
theorem wcsicmp_eq_zero (a b : List Char) : _wcsicmp a b = 0 ↔ foldCase a = foldCase b := by
  unfold _wcsicmp
  by_cases h : foldCase a = foldCase b
  · simp [h]
  · rw [if_neg h]
    by_cases h2 : foldCase a < foldCase b <;> simp [h2, h]

/-- The 23 channel names stay pairwise distinct under case folding. -/
theorem s_chanName_fold_nodup : (s_chanName.map (fun n => foldCase n.toList)).Nodup := by
  decide

/-- No channel name is empty. -/
theorem s_chanName_nonempty : ∀ n ∈ s_chanName, n.toList ≠ [] := by decide

/-- No channel name has more than 15 characters. -/
theorem s_chanName_length_le : ∀ n ∈ s_chanName, n.toList.length ≤ 15 := by decide

/-- No channel name contains a percent sign. -/
theorem s_chanName_no_percent : ∀ n ∈ s_chanName, ∀ c ∈ n.toList, c ≠ '%' := by decide

/-- The loop stops at index `i` when `channel` folds to the `i`-th name and
the folded names are pairwise distinct. -/
theorem findChannel_of_match (channel : List Char) :
    ∀ (names : List String) (k i : Nat) (name : String),
      (names.map (fun n => foldCase n.toList)).Nodup → names[i]? = some name →
      foldCase channel = foldCase name.toList →
      findChannel channel names k = some (k + i) := by
  intro names
  induction names with
  | nil => intro k i name _ h; simp at h
  | cons n ns ih =>
    intro k i name hnd hget hfold
    rw [List.map_cons, List.nodup_cons] at hnd
    cases i with
    | zero =>
      simp only [List.getElem?_cons_zero, Option.some.injEq] at hget
      subst hget
      simp [findChannel, wcsicmp_eq_zero, hfold]
    | succ j =>
      simp only [List.getElem?_cons_succ] at hget
      have hmem : foldCase name.toList ∈ ns.map (fun n => foldCase n.toList) :=
        List.mem_map.mpr ⟨name, List.getElem?_mem hget, rfl⟩
      have hne : ¬ foldCase channel = foldCase n.toList := by
        intro h
        apply hnd.1
        rw [← h, hfold]; exact hmem
      have hrec := ih (k + 1) j name hnd.2 hget hfold
      simp only [findChannel, wcsicmp_eq_zero, if_neg hne, hrec]
      congr 1; omega

/-- The loop runs to the end when `channel` folds to none of the names. -/
theorem findChannel_of_no_match (channel : List Char) :
    ∀ (names : List String) (k : Nat),
      (∀ n ∈ names, foldCase channel ≠ foldCase n.toList) →
      findChannel channel names k = none := by
  intro names
  induction names with
  | nil => intro k _; rfl
  | cons n ns ih =>
    intro k h
    have hne : ¬ foldCase channel = foldCase n.toList := h n (List.mem_cons_self _ _)
    simp only [findChannel, wcsicmp_eq_zero, if_neg hne]
    exact ih (k + 1) (fun m hm => h m (List.mem_cons_of_mem _ hm))

/-- Whatever the loop returns is an index into `names`, offset by the start. -/
theorem findChannel_lt (channel : List Char) :
    ∀ (names : List String) (k i : Nat),
      findChannel channel names k = some i → k ≤ i ∧ i < k + names.length := by
  intro names
  induction names with
  | nil => intro k i h; simp [findChannel] at h
  | cons n ns ih =>
    intro k i h
    simp only [findChannel] at h
    split at h
    · simp only [Option.some.injEq] at h
      subst h
      simp
    · have := ih (k + 1) i h
      simp only [List.length_cons]
      omega

/-- A string of more than 15 characters matches no channel name. -/
theorem findChannel_none_of_long (channel : List Char) (h : 15 < channel.length) :
    findChannel channel s_chanName 0 = none := by
  apply findChannel_of_no_match
  intro n hn hf
  have hl := congrArg List.length hf
  simp only [foldCase, List.length_map] at hl
  have := s_chanName_length_le n hn
  omega

/-- The value the device block leaves in `m_devID`. -/
theorem reloadDevice_fst (rd : Int → Int) (m : Measure) :
    (reloadDevice rd m).1 =
      if 0 ≤ rd m.m_devID ∧ rd m.m_devID < MAX_XINPUT_DEVICES then rd m.m_devID else 0 := by
  have e4 : ((MAX_XINPUT_DEVICES : Nat) : Int) = 4 := rfl
  unfold reloadDevice
  rw [e4]
  by_cases h : 0 ≤ rd m.m_devID ∧ rd m.m_devID < 4
  · have h' : ¬ (rd m.m_devID < 0 ∨ rd m.m_devID ≥ 4) := by omega
    simp only [if_neg h', if_pos h]
  · have h' : rd m.m_devID < 0 ∨ rd m.m_devID ≥ 4 := by omega
    simp only [if_pos h', if_neg h]

/-- A `Reload` that returns leaves in `m_devID` what the device block stored. -/
theorem Reload_devID (rd : Int → Int) (channel : String) (m : Measure)
    (r : Measure × List LogEntry) (h : Reload rd channel m = some r) :
    r.1.m_devID = (reloadDevice rd m).1 := by
  unfold Reload at h
  simp only at h
  split at h
  · split at h
    · simp only [Option.some.injEq] at h; rw [← h]
    · split at h
      · exact absurd h (by simp)
      · split at h
        · exact absurd h (by simp)
        · simp only [Option.some.injEq] at h; rw [← h]
  · simp only [Option.some.injEq] at h; rw [← h]

/-- The channel index after a `Reload` that returns, by the outcome of the
name loop. -/
theorem Reload_channel (rd : Int → Int) (channel : String) (m : Measure)
    (r : Measure × List LogEntry) (h : Reload rd channel m = some r) :
    r.1.m_channel =
      if channel.toList = [] then m.m_channel
      else match findChannel channel.toList s_chanName 0 with
        | some i => (i : Int)
        | none => m.m_channel := by
  unfold Reload at h
  simp only at h
  by_cases hc : channel.toList = []
  · have hn : ¬ (channel.toList ≠ []) := fun hh => hh hc
    rw [if_neg hn] at h
    simp only [Option.some.injEq] at h
    rw [if_pos hc, ← h]
  · rw [if_pos hc] at h
    rw [if_neg hc]
    cases hf : findChannel channel.toList s_chanName 0 with
    | some i =>
      rw [hf] at h
      simp only [Option.some.injEq] at h
      rw [← h]
    | none =>
      rw [hf] at h
      simp only at h
      split at h
      · exact absurd h (by simp)
      · split at h
        · exact absurd h (by simp)
        · simp only [Option.some.injEq] at h; rw [← h]

/-- With an empty Channel string `Reload` returns and only the device block
has acted. -/
theorem Reload_of_empty (rd : Int → Int) (channel : String) (m : Measure)
    (hc : channel.toList = []) :
    Reload rd channel m = some (⟨(reloadDevice rd m).1, m.m_channel⟩, (reloadDevice rd m).2) := by
  have hn : ¬ (channel.toList ≠ []) := fun hh => hh hc
  unfold Reload
  simp only [if_neg hn]

/-- With a matching Channel string `Reload` returns and stores the index. -/
theorem Reload_of_match (rd : Int → Int) (channel : String) (m : Measure) (i : Nat)
    (hc : channel.toList ≠ []) (hf : findChannel channel.toList s_chanName 0 = some i) :
    Reload rd channel m = some (⟨(reloadDevice rd m).1, i⟩, (reloadDevice rd m).2) := by
  unfold Reload
  simp only [if_pos hc, hf]

/-! ## Facts about the channel message of `Reload` -/

/-- The first `_snwprintf_s` truncates when the Channel string has 477 or
more characters (the header takes 35), and returns -1: the cursor is left
one character below `msg`. -/
theorem header_truncated (channel : List Char) (h : 477 ≤ channel.length) :
    ∃ text : List Char,
      appendTruncate ⟨[], 0⟩
        ("Invalid Channel '".toList ++ channel ++ "', must be one of:".toList)
        = some ⟨text, -1⟩ := by
  have hl : ("Invalid Channel '".toList ++ channel ++ "', must be one of:".toList).length
      = channel.length + 35 := by
    simp only [List.length_append]
    have h1 : "Invalid Channel '".toList.length = 17 := by decide
    have h2 : "', must be one of:".toList.length = 18 := by decide
    omega
  unfold appendTruncate
  have h0 : ¬ ((0 : Int) < 0 ∨ (512 : Int) ≤ 0) := by omega
  simp only [if_neg h0, hl]
  have h2 : ¬ (((channel.length + 35 : Nat) : Int) + 1 ≤ (1024 - 2 * 0) / 2) := by omega
  rw [if_neg h2]
  exact ⟨_, rfl⟩

/-- A call with the cursor below `msg` is undefined, so the message of a
Channel string of 477 or more characters is never completed. -/
theorem buildMessage_none_of_long (channel : List Char) (h : 477 ≤ channel.length) :
    buildMessage channel = none := by
  obtain ⟨text, ht⟩ := header_truncated channel h
  unfold buildMessage
  rw [ht]
  rfl

/-- `Reload` is undefined for every Channel string of 477 or more
characters. -/
theorem Reload_undefined_of_long (rd : Int → Int) (channel : String) (m : Measure)
    (h : 477 ≤ channel.toList.length) : Reload rd channel m = none := by
  have hc : channel.toList ≠ [] := by
    intro h0; rw [h0] at h; simp at h
  unfold Reload
  simp only [if_pos hc, findChannel_none_of_long channel.toList (by omega),
    buildMessage_none_of_long channel.toList h]

/-- A call with the cursor inside `msg` is defined; the cursor moves back by
at most one and stays inside, and no new character appears besides those
of the output. -/
theorem appendTruncate_some (b : MsgBuf) (out : List Char) (h0 : 0 ≤ b.d) (h1 : b.d < 512) :
    ∃ b1 : MsgBuf, appendTruncate b out = some b1 ∧ b.d - 1 ≤ b1.d ∧ b1.d < 512 ∧
      (out.length + 1 ≤ 512 - b.d → b1.d = b.d + out.length) ∧
      ∀ c ∈ b1.text, c ∈ b.text ∨ c ∈ out := by
  unfold appendTruncate
  have hg : ¬ (b.d < 0 ∨ 512 ≤ b.d) := by omega
  simp only [if_neg hg]
  by_cases hfit : (out.length : Int) + 1 ≤ (1024 - 2 * b.d) / 2
  · rw [if_pos hfit]
    refine ⟨_, rfl, by simp only; omega, by simp only; omega, fun _ => rfl, ?_⟩
    intro c hc
    simp only [List.mem_append] at hc
    rcases hc with hc | hc
    · exact Or.inl (List.mem_of_mem_take hc)
    · exact Or.inr hc
  · rw [if_neg hfit]
    refine ⟨_, rfl, by simp only; omega, by simp only; omega, fun h => absurd (by omega) hfit, ?_⟩
    intro c hc
    simp only [List.mem_append] at hc
    rcases hc with hc | hc
    · exact Or.inl (List.mem_of_mem_take hc)
    · exact Or.inr (List.mem_of_mem_take hc)

/-- The fixed pieces of the message contain no percent sign. -/
theorem fixed_text_no_percent :
    (∀ c ∈ "Invalid Channel '".toList, c ≠ '%') ∧
    (∀ c ∈ "', must be one of:".toList, c ≠ '%') ∧
    (∀ c ∈ ".\n".toList, c ≠ '%') ∧
    (∀ c ∈ ", ".toList, c ≠ '%') ∧ (∀ c ∈ " ".toList, c ≠ '%') ∧
    (∀ c ∈ "or ".toList, c ≠ '%') := by decide

/-- No list entry brings a percent sign into the message. -/
theorem listEntry_no_percent (i : Nat) (name : String) (hn : ∀ c ∈ name.toList, c ≠ '%') :
    ∀ c ∈ listEntry i name, c ≠ '%' := by
  intro c hc
  unfold listEntry at hc
  simp only [List.mem_append] at hc
  rcases hc with (hc | hc) | hc
  · split at hc
    · exact fixed_text_no_percent.2.2.2.1 c hc
    · exact fixed_text_no_percent.2.2.2.2.1 c hc
  · split at hc
    · exact fixed_text_no_percent.2.2.2.2.2 c hc
    · simp at hc
  · exact hn c hc

/-- The list loop is defined when the cursor starts at least as many
characters inside `msg` as there are names left. -/
theorem appendNames_some :
    ∀ (names : List String) (i : Nat) (b : MsgBuf),
      (names.length : Int) ≤ b.d → b.d < 512 →
      (∀ n ∈ names, ∀ c ∈ n.toList, c ≠ '%') → (∀ c ∈ b.text, c ≠ '%') →
      ∃ b1 : MsgBuf, appendNames b names i = some b1 ∧ b.d - names.length ≤ b1.d ∧
        b1.d < 512 ∧ ∀ c ∈ b1.text, c ≠ '%' := by
  intro names
  induction names with
  | nil =>
    intro i b h0 h1 _ hb
    exact ⟨b, rfl, by simp, h1, hb⟩
  | cons n ns ih =>
    intro i b h0 h1 hn hb
    simp only [List.length_cons, Nat.cast_add, Nat.cast_one] at h0
    obtain ⟨b1, e1, l1, u1, _, t1⟩ :=
      appendTruncate_some b (listEntry i n) (by omega) h1
    have hb1 : ∀ c ∈ b1.text, c ≠ '%' := by
      intro c hc
      rcases t1 c hc with h | h
      · exact hb c h
      · exact listEntry_no_percent i n (hn n (List.mem_cons_self _ _)) c h
    obtain ⟨b2, e2, l2, u2, t2⟩ :=
      ih (i + 1) b1 (by omega) u1 (fun m hm => hn m (List.mem_cons_of_mem _ hm)) hb1
    refine ⟨b2, ?_, ?_, u2, t2⟩
    · simp only [appendNames, e1, e2]
    · simp only [List.length_cons, Nat.cast_add, Nat.cast_one]
      omega

/-- A format without a percent sign reads no argument. -/
theorem formatReadsArgs_of_no_percent :
    ∀ l : List Char, (∀ c ∈ l, c ≠ '%') → formatReadsArgs l = false := by
  intro l
  induction l with
  | nil => intro _; rfl
  | cons c t ih =>
    intro h
    have hc : c ≠ '%' := h c (List.mem_cons_self _ _)
    cases t with
    | nil => simp [formatReadsArgs, hc]
    | cons c2 rest =>
      simp only [formatReadsArgs, if_neg hc]
      exact ih (fun x hx => h x (List.mem_cons_of_mem _ hx))

/-- For a Channel string of at most 476 characters without a percent sign
the message is completed and is a format that reads no argument. -/
theorem buildMessage_some (channel : List Char) (hlen : channel.length ≤ 476)
    (hp : ∀ c ∈ channel, c ≠ '%') :
    ∃ b : MsgBuf, buildMessage channel = some b ∧ formatReadsArgs b.text = false := by
  have hl : ("Invalid Channel '".toList ++ channel ++ "', must be one of:".toList).length
      = channel.length + 35 := by
    simp only [List.length_append]
    have h1 : "Invalid Channel '".toList.length = 17 := by decide
    have h2 : "', must be one of:".toList.length = 18 := by decide
    omega
  obtain ⟨b1, e1, _, u1, f1, t1⟩ := appendTruncate_some ⟨[], 0⟩
    ("Invalid Channel '".toList ++ channel ++ "', must be one of:".toList)
    (le_refl _) (by decide)
  have d1 : b1.d = (channel.length : Int) + 35 := by
    have := f1 (by rw [hl]; simp only [Nat.cast_add]; omega)
    rw [this, hl]; simp
  have hb1 : ∀ c ∈ b1.text, c ≠ '%' := by
    intro c hc
    rcases t1 c hc with h | h
    · simp at h
    · simp only [List.mem_append] at h
      rcases h with (h | h) | h
      · exact fixed_text_no_percent.1 c h
      · exact hp c h
      · exact fixed_text_no_percent.2.1 c h
  have hlen23 : s_chanName.length = 23 := rfl
  obtain ⟨b2, e2, l2, u2, t2⟩ := appendNames_some s_chanName 0 b1
    (by rw [hlen23, d1]; omega) u1 s_chanName_no_percent hb1
  obtain ⟨b3, e3, _, _, _, t3⟩ := appendTruncate_some b2 ".\n".toList
    (by rw [hlen23, d1] at l2; omega) u2
  refine ⟨b3, ?_, ?_⟩
  · unfold buildMessage
    rw [e1]
    dsimp only
    rw [e2]
    exact e3
  · apply formatReadsArgs_of_no_percent
    intro c hc
    rcases t3 c hc with h | h
    · exact t2 c h
    · exact fixed_text_no_percent.2.2.1 c h

/-- For an unmatched Channel string of at most 476 characters without a
percent sign `Reload` returns, logs the message and keeps `m_channel`. -/
theorem Reload_unmatched_short (rd : Int → Int) (channel : String) (m : Measure)
    (hc : channel.toList ≠ [])
    (hno : ∀ n ∈ s_chanName, _wcsicmp channel.toList n.toList ≠ 0)
    (hlen : channel.toList.length ≤ 476) (hp : ∀ c ∈ channel.toList, c ≠ '%') :
    ∃ r : Measure × List LogEntry, Reload rd channel m = some r ∧
      r.1.m_channel = m.m_channel := by
  obtain ⟨b, eb, fb⟩ := buildMessage_some channel.toList hlen hp
  have hf := findChannel_of_no_match channel.toList s_chanName 0
    (fun n hn hfold => hno n hn ((wcsicmp_eq_zero _ _).mpr hfold))
  refine ⟨(⟨(reloadDevice rd m).1, m.m_channel⟩,
    (reloadDevice rd m).2 ++ [LogEntry.invalidChannel (String.mk b.text)]), ?_, rfl⟩
  unfold Reload
  simp only [if_pos hc, hf, eb, fb]
  rfl

/-! ## Claims on `Reload` -/

/-- Claim C12. For every channel index `i` and every string equal to
`s_chanName[i]` up to letter case, `Reload` with that Channel option returns
with `m_channel` set to exactly `i`; the 23 names are pairwise distinct under
case folding; and `s_chanName[i]` is the name of the enum channel with value
`i` ("JoyL_X" for `CHANNEL_JOYL_X` = 0, …, "Connected" for
`CHANNEL_CONNECTED` = 20, "Battery_Headset" for 22). -/
theorem channel_name_lookup (i : Nat) (name channel : String) (rd : Int → Int) (m : Measure)
    (hname : s_chanName[i]? = some name)
    (hfold : foldCase channel.toList = foldCase name.toList) :
    (Reload rd channel m).map (fun r => r.1.m_channel) = some (i : Int) ∧
    i < NUM_CHANNELS ∧
    (s_chanName.map (fun n => foldCase n.toList)).Nodup ∧
    s_chanName.length = NUM_CHANNELS ∧
    ∀ p ∈ [(CHANNEL_JOYL_X, "JoyL_X"), (CHANNEL_JOYL_Y, "JoyL_Y"), (CHANNEL_JOYR_X, "JoyR_X"),
        (CHANNEL_JOYR_Y, "JoyR_Y"), (CHANNEL_DPAD_U, "Dpad_U"), (CHANNEL_DPAD_D, "Dpad_D"),
        (CHANNEL_DPAD_L, "Dpad_L"), (CHANNEL_DPAD_R, "Dpad_R"), (CHANNEL_FACE_U, "Face_U"),
        (CHANNEL_FACE_D, "Face_D"), (CHANNEL_FACE_L, "Face_L"), (CHANNEL_FACE_R, "Face_R"),
        (CHANNEL_LTRIG1, "LTrig1"), (CHANNEL_RTRIG1, "RTrig1"), (CHANNEL_LTRIG2, "LTrig2"),
        (CHANNEL_RTRIG2, "RTrig2"), (CHANNEL_JOYL_CLICK, "JoyL_Click"),
        (CHANNEL_JOYR_CLICK, "JoyR_Click"), (CHANNEL_START, "Start"), (CHANNEL_BACK, "Back"),
        (CHANNEL_CONNECTED, "Connected"), (CHANNEL_BATTERY_PAD, "Battery_Pad"),
        (CHANNEL_BATTERY_HEADSET, "Battery_Headset")],
      s_chanName[p.1.val]? = some p.2 := by
  have hmem : name ∈ s_chanName := List.getElem?_mem hname
  have hne : channel.toList ≠ [] := by
    intro h
    have hl := congrArg List.length hfold
    rw [h] at hl
    simp only [foldCase, List.map_nil, List.length_nil, List.length_map] at hl
    exact s_chanName_nonempty name hmem (List.length_eq_zero.mp hl.symm)
  have hi : i < s_chanName.length := by
    rcases List.getElem?_eq_some.mp hname with ⟨h, _⟩
    exact h
  refine ⟨?_, hi, s_chanName_fold_nodup, rfl, by decide⟩
  have hf := findChannel_of_match channel.toList s_chanName 0 i name
    s_chanName_fold_nodup hname hfold
  rw [Nat.zero_add] at hf
  rw [Reload_of_match rd channel m i hne hf]
  rfl

/-- Witness for C12: "CONNECTED" selects channel 20. -/
theorem channel_name_lookup_witness :
    s_chanName[20]? = some "Connected" ∧
    foldCase "CONNECTED".toList = foldCase "Connected".toList ∧
    (Reload (fun d => d) "CONNECTED" Measure.init).map (fun r => r.1.m_channel)
      = some ((20 : Nat) : Int) :=
  ⟨rfl, by decide,
    (channel_name_lookup 20 "Connected" "CONNECTED" (fun d => d) Measure.init rfl
      (by decide)).1⟩

/-- A `Reload` that returns on an empty or unmatched Channel string has left
`m_channel` as it was. -/
theorem Reload_keeps_channel (rd : Int → Int) (channel : String) (m : Measure)
    (r : Measure × List LogEntry) (hr : Reload rd channel m = some r)
    (h : channel.toList = [] ∨ ∀ n ∈ s_chanName, _wcsicmp channel.toList n.toList ≠ 0) :
    r.1.m_channel = m.m_channel := by
  rw [Reload_channel rd channel m r hr]
  by_cases hc : channel.toList = []
  · rw [if_pos hc]
  · rw [if_neg hc]
    rcases h with h | hno
    · exact absurd h hc
    · rw [findChannel_of_no_match channel.toList s_chanName 0
        (fun n hn hf => hno n hn ((wcsicmp_eq_zero _ _).mpr hf))]

/-- Claim C13, the code at a failing input. A Channel string of 477 letters
`x` is non-empty and matches none of the 23 names; the first `_snwprintf_s`
of the message block truncates and returns -1, the cursor `d` is left at
`msg - 1`, and the next call writes below `msg`: `Reload` is undefined, so it
does not leave `m_channel` as it was. The Channel string "%s" is undefined as
well: the message that holds it is passed to `RmLogF` as the format. -/
theorem long_unknown_channel_undefined :
    (String.mk (List.replicate 477 'x')).toList ≠ [] ∧
    (∀ n ∈ s_chanName, _wcsicmp (String.mk (List.replicate 477 'x')).toList n.toList ≠ 0) ∧
    (appendTruncate ⟨[], 0⟩
        ("Invalid Channel '".toList ++ (String.mk (List.replicate 477 'x')).toList ++
          "', must be one of:".toList)).map (fun b => b.d) = some (-1) ∧
    Reload (fun d => d) (String.mk (List.replicate 477 'x')) ⟨2, 7⟩ = none ∧
    Reload (fun d => d) "%s" ⟨2, 7⟩ = none := by
  have hlen : (String.mk (List.replicate 477 'x')).toList.length = 477 := by
    show (List.replicate 477 'x').length = 477
    exact List.length_replicate _ _
  refine ⟨?_, ?_, ?_, Reload_undefined_of_long _ _ _ (by rw [hlen]), by decide⟩
  · intro h
    rw [h] at hlen
    exact absurd hlen (by decide)
  · intro n hn h0
    have hl := congrArg List.length ((wcsicmp_eq_zero _ _).mp h0)
    simp only [foldCase, List.length_map] at hl
    have := s_chanName_length_le n hn
    omega
  · obtain ⟨text, ht⟩ := header_truncated (String.mk (List.replicate 477 'x')).toList
      (by rw [hlen])
    rw [ht]
    rfl

/-- Claim C14. When `RmReadInt` returns `d` for the Device option, the device
block of `Reload` sets `m_devID` to `d` if `0 ≤ d < MAX_XINPUT_DEVICES` and
to 0 otherwise, whatever `m_devID` was before; every `Reload` that returns
leaves that value in `m_devID`, and with an empty or matching Channel string
`Reload` does return. -/
theorem device_option_clamped (rd : Int → Int) (channel : String) (m : Measure) (d : Int)
    (hread : rd m.m_devID = d) :
    (reloadDevice rd m).1 = (if 0 ≤ d ∧ d < MAX_XINPUT_DEVICES then d else 0) ∧
    (0 ≤ d → d < 4 → (reloadDevice rd m).1 = d) ∧
    (d < 0 ∨ 4 ≤ d → (reloadDevice rd m).1 = 0) ∧
    (∀ r, Reload rd channel m = some r →
      r.1.m_devID = (if 0 ≤ d ∧ d < MAX_XINPUT_DEVICES then d else 0)) ∧
    ((channel.toList = [] ∨ ∃ i, findChannel channel.toList s_chanName 0 = some i) →
      (Reload rd channel m).map (fun r => r.1.m_devID) =
        some (if 0 ≤ d ∧ d < MAX_XINPUT_DEVICES then d else 0)) := by
  have e4 : ((MAX_XINPUT_DEVICES : Nat) : Int) = 4 := rfl
  have hdev := reloadDevice_fst rd m
  rw [hread] at hdev
  refine ⟨hdev, ?_, ?_, ?_, ?_⟩
  · intro h1 h2
    rw [hdev, e4, if_pos ⟨h1, h2⟩]
  · intro h
    rw [hdev, e4, if_neg (by omega)]
  · intro r hr
    rw [Reload_devID rd channel m r hr, hdev]
  · intro h
    by_cases hc : channel.toList = []
    · rw [Reload_of_empty rd channel m hc, ← hdev]
      rfl
    · rcases h with h | ⟨i, hi⟩
      · exact absurd h hc
      · rw [Reload_of_match rd channel m i hc hi, ← hdev]
        rfl

/-- Witness for C14: Device=7 on a measure bound to slot 2 gives slot 0. -/
theorem device_option_clamped_witness :
    (fun _ : Int => (7 : Int)) (⟨2, 7⟩ : Measure).m_devID = 7 ∧
    (reloadDevice (fun _ => 7) ⟨2, 7⟩).1 = 0 ∧
    (Reload (fun _ => 7) "Start" ⟨2, 7⟩).map (fun r => r.1.m_devID) = some 0 :=
  have h := device_option_clamped (fun _ => 7) "Start" ⟨2, 7⟩ 7 rfl
  ⟨rfl, h.2.2.1 (Or.inr (by decide)),
    (h.2.2.2.2 (Or.inr ⟨18, by decide⟩)).trans (by decide)⟩

/-- One `Reload` that returns leaves both indices inside their arrays when
the channel index was inside before; the device index is inside in any case. -/
theorem Reload_in_bounds (rd : Int → Int) (channel : String) (m : Measure)
    (r : Measure × List LogEntry) (hr : Reload rd channel m = some r)
    (hc : 0 ≤ m.m_channel ∧ m.m_channel < NUM_CHANNELS) :
    (0 ≤ r.1.m_devID ∧ r.1.m_devID < MAX_XINPUT_DEVICES) ∧
    (0 ≤ r.1.m_channel ∧ r.1.m_channel < NUM_CHANNELS) := by
  have e4 : ((MAX_XINPUT_DEVICES : Nat) : Int) = 4 := rfl
  have e23 : ((NUM_CHANNELS : Nat) : Int) = 23 := rfl
  constructor
  · rw [Reload_devID rd channel m r hr, reloadDevice_fst, e4]
    split <;> omega
  · rw [Reload_channel rd channel m r hr]
    split
    · exact hc
    · cases hf : findChannel channel.toList s_chanName 0 with
      | none => exact hc
      | some i =>
        have := findChannel_lt channel.toList s_chanName 0 i hf
        have hl : s_chanName.length = 23 := rfl
        simp only
        rw [e23]
        omega

/-- After the constructor and a sequence of `Reload` calls that all return,
both indices are inside their arrays and the exported `Update` does not take
the out-of-range branch. -/
theorem reloads_in_bounds (calls : List ((Int → Int) × String)) (m : Measure)
    (h : Measure.reloads calls = some m) :
    (0 ≤ m.m_devID ∧ m.m_devID < MAX_XINPUT_DEVICES) ∧
    (0 ≤ m.m_channel ∧ m.m_channel < NUM_CHANNELS) ∧
    ∀ (pcCur : Int) (xi : Int → PollResult) (g : Statics),
      (Update pcCur xi m g).isSome = true := by
  have inv : ∀ (cs : List ((Int → Int) × String)) (m0 m1 : Measure),
      ((0 ≤ m0.m_devID ∧ m0.m_devID < MAX_XINPUT_DEVICES) ∧
        (0 ≤ m0.m_channel ∧ m0.m_channel < NUM_CHANNELS)) →
      Measure.reloadsFrom cs m0 = some m1 →
      ((0 ≤ m1.m_devID ∧ m1.m_devID < MAX_XINPUT_DEVICES) ∧
        (0 ≤ m1.m_channel ∧ m1.m_channel < NUM_CHANNELS)) := by
    intro cs
    induction cs with
    | nil =>
      intro m0 m1 h0 h1
      simp only [Measure.reloadsFrom, Option.some.injEq] at h1
      rw [← h1]; exact h0
    | cons c cs ih =>
      intro m0 m1 h0 h1
      simp only [Measure.reloadsFrom] at h1
      cases hr : Reload c.1 c.2 m0 with
      | none => rw [hr] at h1; exact absurd h1 (by simp)
      | some r =>
        rw [hr] at h1
        exact ih r.1 m1 (Reload_in_bounds c.1 c.2 m0 r hr h0.2) h1
  have hb := inv calls Measure.init m (by decide) h
  refine ⟨hb.1, hb.2, fun pcCur xi g => ?_⟩
  unfold Update
  rw [dif_pos hb]
  rfl

/-- Claim C15, the code at a failing input. After the constructor and a
`Reload` with Channel "Start" the measure is bound to slot 0, channel 18; a
second `Reload` whose Channel string is 477 letters `x` runs into the write
below `msg` and is undefined, so nothing holds of `m_devID` and `m_channel`
after that call. -/
theorem reload_sequence_undefined :
    Measure.reloads [(fun d => d, "Start")] = some ⟨0, 18⟩ ∧
    Measure.reloads
      [(fun d => d, "Start"), (fun d => d, String.mk (List.replicate 477 'x'))] = none := by
  have hlen : (String.mk (List.replicate 477 'x')).toList.length = 477 := by
    show (List.replicate 477 'x').length = 477
    exact List.length_replicate _ _
  have h1 : Reload (fun d => d) "Start" Measure.init = some (⟨0, 18⟩, []) := by decide
  constructor
  · simp only [Measure.reloads, Measure.reloadsFrom, h1]
  · simp only [Measure.reloads, Measure.reloadsFrom, h1,
      Reload_undefined_of_long _ _ _ (le_of_eq hlen.symm)]

/-! ## Invariants of a device slot -/

/-- One `Device::Update` call keeps the slot invariant: if the most recent
poll issued succeeded, Connected is 1.0 and both battery channels are 0.0;
otherwise every channel is 0.0. -/
theorem step_invariant (s_pcMult : ℚ) (st : Device × Option Nat) (c : Call)
    (h1 : st.2 = some ERROR_SUCCESS →
      st.1.m_data CHANNEL_CONNECTED = 1 ∧ st.1.m_data CHANNEL_BATTERY_PAD = 0 ∧
        st.1.m_data CHANNEL_BATTERY_HEADSET = 0)
    (h2 : st.2 ≠ some ERROR_SUCCESS → ∀ i : Channel, st.1.m_data i = 0) :
    ((Device.step s_pcMult st c).2 = some ERROR_SUCCESS →
      (Device.step s_pcMult st c).1.m_data CHANNEL_CONNECTED = 1 ∧
        (Device.step s_pcMult st c).1.m_data CHANNEL_BATTERY_PAD = 0 ∧
        (Device.step s_pcMult st c).1.m_data CHANNEL_BATTERY_HEADSET = 0) ∧
    ((Device.step s_pcMult st c).2 ≠ some ERROR_SUCCESS →
      ∀ i : Channel, (Device.step s_pcMult st c).1.m_data i = 0) := by
  have hbat : st.1.m_data CHANNEL_BATTERY_PAD = 0 ∧ st.1.m_data CHANNEL_BATTERY_HEADSET = 0 := by
    by_cases hs : st.2 = some ERROR_SUCCESS
    · exact (h1 hs).2
    · exact ⟨h2 hs _, h2 hs _⟩
  unfold Device.step
  by_cases hg : upToDate s_pcMult c.pcCur st.1
  · rw [Update_of_upToDate _ _ _ _ _ hg]
    simp only [if_true]
    exact ⟨h1, h2⟩
  · rw [Update_of_stale _ _ _ _ _ hg]
    simp only [one_ne_zero, if_false, Option.some.injEq, ne_eq]
    constructor
    · intro hok
      rw [if_pos hok]
      exact ⟨parseState_connected _ _,
        by rw [(parseState_battery _ _).1]; exact hbat.1,
        by rw [(parseState_battery _ _).2]; exact hbat.2⟩
    · intro hfail i
      rw [if_neg hfail]

/-- The slot invariant holds after the constructor and any sequence of
`Device::Update` calls. -/
theorem run_invariant (s_pcMult : ℚ) (calls : List Call) :
    ((Device.run s_pcMult calls).2 = some ERROR_SUCCESS →
      (Device.run s_pcMult calls).1.m_data CHANNEL_CONNECTED = 1 ∧
        (Device.run s_pcMult calls).1.m_data CHANNEL_BATTERY_PAD = 0 ∧
        (Device.run s_pcMult calls).1.m_data CHANNEL_BATTERY_HEADSET = 0) ∧
    ((Device.run s_pcMult calls).2 ≠ some ERROR_SUCCESS →
      ∀ i : Channel, (Device.run s_pcMult calls).1.m_data i = 0) := by
  have inv : ∀ (cs : List Call) (st : Device × Option Nat),
      ((st.2 = some ERROR_SUCCESS →
          st.1.m_data CHANNEL_CONNECTED = 1 ∧ st.1.m_data CHANNEL_BATTERY_PAD = 0 ∧
            st.1.m_data CHANNEL_BATTERY_HEADSET = 0) ∧
        (st.2 ≠ some ERROR_SUCCESS → ∀ i : Channel, st.1.m_data i = 0)) →
      (((cs.foldl (Device.step s_pcMult) st).2 = some ERROR_SUCCESS →
          (cs.foldl (Device.step s_pcMult) st).1.m_data CHANNEL_CONNECTED = 1 ∧
            (cs.foldl (Device.step s_pcMult) st).1.m_data CHANNEL_BATTERY_PAD = 0 ∧
            (cs.foldl (Device.step s_pcMult) st).1.m_data CHANNEL_BATTERY_HEADSET = 0) ∧
        ((cs.foldl (Device.step s_pcMult) st).2 ≠ some ERROR_SUCCESS →
          ∀ i : Channel, (cs.foldl (Device.step s_pcMult) st).1.m_data i = 0)) := by
    intro cs
    induction cs with
    | nil => intro st h; exact h
    | cons c cs ih =>
      intro st h
      rw [List.foldl_cons]
      exact ih _ (step_invariant s_pcMult st c h.1 h.2)
  exact inv calls (Device.init, none) ⟨fun h => by simp at h, fun _ _ => rfl⟩

/-- Claim C16. With the battery subsystem compiled out (`DO_BATTERY` = 0),
in every slot state reached from the constructor by any sequence of
`Device::Update` calls (any times, any poll results, any snapshots) both
`CHANNEL_BATTERY_PAD` and `CHANNEL_BATTERY_HEADSET` are 0.0. -/
theorem battery_channels_stay_zero (s_pcMult : ℚ) (calls : List Call) :
    DO_BATTERY = false ∧
    (Device.run s_pcMult calls).1.m_data CHANNEL_BATTERY_PAD = 0 ∧
    (Device.run s_pcMult calls).1.m_data CHANNEL_BATTERY_HEADSET = 0 := by
  have h := run_invariant s_pcMult calls
  by_cases hs : (Device.run s_pcMult calls).2 = some ERROR_SUCCESS
  · exact ⟨rfl, (h.1 hs).2⟩
  · exact ⟨rfl, h.2 hs _, h.2 hs _⟩

/-- Claim C17. Two snapshots that differ only in the reserved bits 10 and 11
of `wButtons`, polled successfully from the same prior slot state, yield
identical `m_data` arrays. -/
theorem reserved_bits_ignored (s_pcMult : ℚ) (pcCur : Int) (xi1 xi2 : Int → PollResult)
    (devID : Int) (d : Device) (hgate : ¬ upToDate s_pcMult pcCur d)
    (hok1 : (xi1 devID).code = ERROR_SUCCESS) (hok2 : (xi2 devID).code = ERROR_SUCCESS)
    (hbits : ∀ i : Nat, i < 16 → i ≠ 10 → i ≠ 11 →
      (xi1 devID).state.Gamepad.wButtons.testBit i =
        (xi2 devID).state.Gamepad.wButtons.testBit i)
    (hLT : (xi1 devID).state.Gamepad.bLeftTrigger = (xi2 devID).state.Gamepad.bLeftTrigger)
    (hRT : (xi1 devID).state.Gamepad.bRightTrigger = (xi2 devID).state.Gamepad.bRightTrigger)
    (hLX : (xi1 devID).state.Gamepad.sThumbLX = (xi2 devID).state.Gamepad.sThumbLX)
    (hLY : (xi1 devID).state.Gamepad.sThumbLY = (xi2 devID).state.Gamepad.sThumbLY)
    (hRX : (xi1 devID).state.Gamepad.sThumbRX = (xi2 devID).state.Gamepad.sThumbRX)
    (hRY : (xi1 devID).state.Gamepad.sThumbRY = (xi2 devID).state.Gamepad.sThumbRY) :
    (d.Update s_pcMult pcCur xi1 devID).1.m_data =
      (d.Update s_pcMult pcCur xi2 devID).1.m_data := by
  have hd : ∀ i : Nat, i < 16 → i ≠ 10 → i ≠ 11 →
      digital (xi1 devID).state.Gamepad.wButtons i =
        digital (xi2 devID).state.Gamepad.wButtons i := by
    intro i h h10 h11
    rw [digital_eq, digital_eq, hbits i h h10 h11]
  rw [Update_data_of_success _ _ _ _ _ hgate hok1, Update_data_of_success _ _ _ _ _ hgate hok2,
    parseState_unfold, parseState_unfold, hLT, hRT, hLX, hLY, hRX, hRY,
    hd 0 (by decide) (by decide) (by decide), hd 1 (by decide) (by decide) (by decide),
    hd 2 (by decide) (by decide) (by decide), hd 3 (by decide) (by decide) (by decide),
    hd 4 (by decide) (by decide) (by decide), hd 5 (by decide) (by decide) (by decide),
    hd 6 (by decide) (by decide) (by decide), hd 7 (by decide) (by decide) (by decide),
    hd 8 (by decide) (by decide) (by decide), hd 9 (by decide) (by decide) (by decide),
    hd 12 (by decide) (by decide) (by decide), hd 13 (by decide) (by decide) (by decide),
    hd 14 (by decide) (by decide) (by decide), hd 15 (by decide) (by decide) (by decide)]

/-- Witness for C17: button words 1 and 3073 (bits 10 and 11 added). -/
theorem reserved_bits_ignored_witness :
    ¬ upToDate (1 / 2 ^ 20) (2 ^ 20) Device.init ∧
    (∀ i : Nat, i < 16 → i ≠ 10 → i ≠ 11 → Nat.testBit 1 i = Nat.testBit 3073 i) ∧
    (Device.init.Update (1 / 2 ^ 20) (2 ^ 20)
        (fun _ => ⟨ERROR_SUCCESS, ⟨1, ⟨1, 9, 0, 0, 0, 0, 0⟩⟩⟩) 0).1.m_data =
      (Device.init.Update (1 / 2 ^ 20) (2 ^ 20)
        (fun _ => ⟨ERROR_SUCCESS, ⟨2, ⟨3073, 9, 0, 0, 0, 0, 0⟩⟩⟩) 0).1.m_data :=
  ⟨gate_open_example _ rfl, by decide,
    reserved_bits_ignored (1 / 2 ^ 20) (2 ^ 20)
      (fun _ => ⟨ERROR_SUCCESS, ⟨1, ⟨1, 9, 0, 0, 0, 0, 0⟩⟩⟩)
      (fun _ => ⟨ERROR_SUCCESS, ⟨2, ⟨3073, 9, 0, 0, 0, 0, 0⟩⟩⟩) 0 Device.init
      (gate_open_example _ rfl) rfl rfl (by decide) rfl rfl rfl rfl rfl rfl⟩

/-- Claim C18. In every slot state reached from the constructor by any
sequence of `Device::Update` calls, `CHANNEL_CONNECTED` is 0.0 or 1.0; when it
is 0.0 every channel of `m_data` is 0.0; and it is 1.0 exactly when the most
recent poll actually issued for the slot succeeded. -/
theorem connected_flag_invariant (s_pcMult : ℚ) (calls : List Call) :
    ((Device.run s_pcMult calls).1.m_data CHANNEL_CONNECTED = 0 ∨
      (Device.run s_pcMult calls).1.m_data CHANNEL_CONNECTED = 1) ∧
    ((Device.run s_pcMult calls).1.m_data CHANNEL_CONNECTED = 0 →
      ∀ i : Channel, (Device.run s_pcMult calls).1.m_data i = 0) ∧
    ((Device.run s_pcMult calls).1.m_data CHANNEL_CONNECTED = 1 ↔
      (Device.run s_pcMult calls).2 = some ERROR_SUCCESS) := by
  have h := run_invariant s_pcMult calls
  by_cases hs : (Device.run s_pcMult calls).2 = some ERROR_SUCCESS
  · have h1 := (h.1 hs).1
    refine ⟨Or.inr h1, fun h0 => ?_, fun _ => hs, fun _ => h1⟩
    rw [h1] at h0
    exact absurd h0 one_ne_zero
  · have h0 := h.2 hs
    refine ⟨Or.inl (h0 _), fun _ => h0, fun h1 => ?_, fun h' => absurd h' hs⟩
    rw [h0] at h1
    exact absurd h1 zero_ne_one

/-! ## Purity of the channel derivation -/

/-- Two seconds after construction, or one second after a poll at counter
`2^20`, at a counter frequency of `2^20` Hz, the gate lets the poll through. -/
theorem gate_open_later (d : Device) (h : d.m_pcPoll = 0 ∨ d.m_pcPoll = 2 ^ 20) :
    ¬ upToDate (1 / 2 ^ 20) (2 ^ 21) d := by
  unfold upToDate
  rcases h with h | h
  · have hw : wrap64 (2 ^ 21 - 0) = 2 ^ 21 := by decide
    rw [h, elapsed_pow2 20 _ _ (by norm_num) (by rw [hw]; norm_num), hw, QUERY_TIMEOUT_eq]
    norm_num
  · have hw : wrap64 (2 ^ 21 - 2 ^ 20) = 2 ^ 20 := by decide
    rw [h, elapsed_pow2 20 _ _ (by norm_num) (by rw [hw]; norm_num), hw, QUERY_TIMEOUT_eq]
    norm_num

/-- The history of one call is one step from the constructor state. -/
theorem run_singleton (s_pcMult : ℚ) (c : Call) :
    Device.run s_pcMult [c] = Device.step s_pcMult (Device.init, none) c := rfl

/-- A step whose call passes the gate stores the counter and records the
status of the poll it issued. -/
theorem step_of_stale (s_pcMult : ℚ) (st : Device × Option Nat) (c : Call)
    (hg : ¬ upToDate s_pcMult c.pcCur st.1) :
    (Device.step s_pcMult st c).1.m_pcPoll = c.pcCur ∧
    (Device.step s_pcMult st c).2 = some (c.XInputGetState c.devID).code := by
  unfold Device.step
  rw [Update_of_stale _ _ _ _ _ hg]
  exact ⟨rfl, rfl⟩

/-- The slot after the constructor and one call at counter `2^20`: the poll
was issued and its result stored. -/
theorem run_single (xi : Int → PollResult) (devID : Int) :
    (Device.run (1 / 2 ^ 20) [⟨2 ^ 20, xi, devID⟩]).1.m_pcPoll = 2 ^ 20 ∧
    (Device.run (1 / 2 ^ 20) [⟨2 ^ 20, xi, devID⟩]).2 = some (xi devID).code := by
  rw [run_singleton]
  exact step_of_stale (1 / 2 ^ 20) (Device.init, none) ⟨2 ^ 20, xi, devID⟩
    (gate_open_example _ rfl)

/-- Over an array whose battery channels are 0.0 the parse is the parse over
the all-zero array: a function of the snapshot alone. -/
theorem parseState_of_battery_zero (gp : XINPUT_GAMEPAD) (data : ChannelData)
    (h1 : data CHANNEL_BATTERY_PAD = 0) (h2 : data CHANNEL_BATTERY_HEADSET = 0) :
    parseState gp data = parseState gp (fun _ => 0) := by
  funext i
  by_cases hp : i = CHANNEL_BATTERY_PAD
  · rw [hp, (parseState_battery _ _).1, (parseState_battery _ _).1, h1]
  · by_cases hh : i = CHANNEL_BATTERY_HEADSET
    · rw [hh, (parseState_battery _ _).2, (parseState_battery _ _).2, h2]
    · exact parseState_congr _ _ _ i hp hh

/-- Both battery channels are 0.0 in every state a slot reaches. -/
theorem run_battery_zero (s_pcMult : ℚ) (calls : List Call) :
    (Device.run s_pcMult calls).1.m_data CHANNEL_BATTERY_PAD = 0 ∧
    (Device.run s_pcMult calls).1.m_data CHANNEL_BATTERY_HEADSET = 0 := by
  have h := run_invariant s_pcMult calls
  by_cases hs : (Device.run s_pcMult calls).2 = some ERROR_SUCCESS
  · exact (h.1 hs).2
  · exact ⟨h.2 hs _, h.2 hs _⟩

/-- Claim C10. The channel derivation is a pure function of the raw
snapshot: for every raw snapshot and any two slot states (each reached from
the constructor by any sequence of `Device::Update` calls, so with arbitrary,
possibly different prior channel values), a `Device::Update` that passes the
gate and polls successfully with that snapshot leaves identical `m_data`
arrays in both; the array is the parse of the snapshot over the all-zero
array, so none of the 23 entries depends on the prior state. -/
theorem successful_poll_is_pure (s_pcMult : ℚ) (callsA callsB : List Call) (t1 t2 : Int)
    (xi1 xi2 : Int → PollResult) (dev1 dev2 : Int)
    (hg1 : ¬ upToDate s_pcMult t1 (Device.run s_pcMult callsA).1)
    (hg2 : ¬ upToDate s_pcMult t2 (Device.run s_pcMult callsB).1)
    (hok1 : (xi1 dev1).code = ERROR_SUCCESS) (hok2 : (xi2 dev2).code = ERROR_SUCCESS)
    (hsame : (xi1 dev1).state.Gamepad = (xi2 dev2).state.Gamepad) :
    ((Device.run s_pcMult callsA).1.Update s_pcMult t1 xi1 dev1).1.m_data =
      ((Device.run s_pcMult callsB).1.Update s_pcMult t2 xi2 dev2).1.m_data ∧
    ((Device.run s_pcMult callsA).1.Update s_pcMult t1 xi1 dev1).1.m_data =
      parseState (xi1 dev1).state.Gamepad (fun _ => 0) := by
  have hA := run_battery_zero s_pcMult callsA
  have hB := run_battery_zero s_pcMult callsB
  rw [Update_data_of_success _ _ _ _ _ hg1 hok1, Update_data_of_success _ _ _ _ _ hg2 hok2,
    ← hsame, parseState_of_battery_zero _ _ hA.1 hA.2,
    parseState_of_battery_zero _ _ hB.1 hB.2]
  exact ⟨rfl, rfl⟩

/-- Witness for C10: a fresh slot, and a slot that was polled one second
earlier with every button pressed and is reported connected. -/
theorem successful_poll_is_pure_witness :
    ¬ upToDate (1 / 2 ^ 20) (2 ^ 21) (Device.run (1 / 2 ^ 20) []).1 ∧
    ¬ upToDate (1 / 2 ^ 20) (2 ^ 21)
      (Device.run (1 / 2 ^ 20)
        [⟨2 ^ 20, fun _ => ⟨ERROR_SUCCESS, ⟨1, ⟨62463, 255, 255, 5, 5, 5, 5⟩⟩⟩, 0⟩]).1 ∧
    (Device.run (1 / 2 ^ 20)
        [⟨2 ^ 20, fun _ => ⟨ERROR_SUCCESS, ⟨1, ⟨62463, 255, 255, 5, 5, 5, 5⟩⟩⟩, 0⟩]).2
      = some ERROR_SUCCESS ∧
    ((Device.run (1 / 2 ^ 20) []).1.Update (1 / 2 ^ 20) (2 ^ 21)
        (fun _ => ⟨ERROR_SUCCESS, ⟨2, ⟨1, 7, 0, 0, 0, 0, 0⟩⟩⟩) 0).1.m_data =
      ((Device.run (1 / 2 ^ 20)
          [⟨2 ^ 20, fun _ => ⟨ERROR_SUCCESS, ⟨1, ⟨62463, 255, 255, 5, 5, 5, 5⟩⟩⟩, 0⟩]).1.Update
        (1 / 2 ^ 20) (2 ^ 21)
        (fun _ => ⟨ERROR_SUCCESS, ⟨2, ⟨1, 7, 0, 0, 0, 0, 0⟩⟩⟩) 0).1.m_data :=
  ⟨gate_open_later _ (Or.inl rfl), gate_open_later _ (Or.inr (run_single _ _).1),
    (run_single _ _).2,
    (successful_poll_is_pure (1 / 2 ^ 20) []
      [⟨2 ^ 20, fun _ => ⟨ERROR_SUCCESS, ⟨1, ⟨62463, 255, 255, 5, 5, 5, 5⟩⟩⟩, 0⟩]
      (2 ^ 21) (2 ^ 21)
      (fun _ => ⟨ERROR_SUCCESS, ⟨2, ⟨1, 7, 0, 0, 0, 0, 0⟩⟩⟩)
      (fun _ => ⟨ERROR_SUCCESS, ⟨2, ⟨1, 7, 0, 0, 0, 0, 0⟩⟩⟩) 0 0
      (gate_open_later _ (Or.inl rfl)) (gate_open_later _ (Or.inr (run_single _ _).1))
      rfl rfl rfl).1⟩

end XInput
